import Mathlib

/-!
# Verification of the KBV kettlebell velocity-based-training core

This file gives a shallow embedding, in Lean 4, of the frame-synchronous
processing core of the KBV application (fatigue tracking, set timing,
anthropometric calibration, physics metrics, posture angles, and the
movement-classification state machine of the "Simplified & Debugged"
variant), and settles the frozen claims C1..C10 against it.

Conventions used throughout the embedding:

* JavaScript numbers are modelled exactly: components whose arithmetic is
  closed under the rationals use `ℚ`; components that take square roots,
  arc cosines or the adaptive one-euro filter (whose coefficient involves
  `π`) use `ℝ`.  Every JavaScript float literal is a rational, so
  quantifying inputs over `ℚ` where possible loses no generality.
* JavaScript truthiness on a number-or-null field is modelled on
  `Option ℚ` / `Option ℝ`: `null` and `0` are falsy.
* Mutation is modelled by explicit state passing: each method becomes a
  pure function from the object's state (and the injected clock value that
  `Date.now()` would produce) to the updated state and returned value.
  Determinism of every scenario is therefore immediate: the embedded
  operations are functions of their arguments.
* Fallible code (a JavaScript `throw`) returns an `Option`.
-/

/-! ## Velocity fatigue tracker (`VelocityFatigueTracker`)

State and methods of the fatigue tracker: `reset`, `addRep`,
`calculatePercentDrop`, `calculateAverage`, `checkThresholds`,
`determineFatigueZone`.  The tracker is keyed by movement type; `addRep`
on one movement type reads and writes only that type's record.
-/

/-- The closed set of movement types the tracker is configured with
(`movementsToTrack`, default `['PRESS','CLEAN','SNATCH','SWING']`). -/
inductive Movement
  | PRESS
  | CLEAN
  | SNATCH
  | SWING
  deriving DecidableEq, Repr

/-- Fatigue zone classification (`determineFatigueZone` result). -/
inductive Zone
  | FRESH
  | MILD
  | MODERATE
  | HIGH
  | CRITICAL
  deriving DecidableEq, Repr

/-- Tracker configuration: `baselineReps` (default 3) and
`alertThresholds` (default `[10, 20, 30]`, percent). -/
structure FatigueConfig where
  baselineReps : ℕ
  alertThresholds : List ℚ
  deriving DecidableEq, Repr

def defaultFatigueConfig : FatigueConfig :=
  { baselineReps := 3, alertThresholds := [10, 20, 30] }

/-- Per-movement record of the tracker (`this.data[movement]`). -/
structure FatigueData where
  velocities : List ℚ
  baselineVelocity : Option ℚ
  currentVelocity : Option ℚ
  peakVelocity : Option ℚ
  dropFromBaseline : ℚ
  dropFromPeak : ℚ
  thresholdsCrossed : List ℚ
  repCount : ℕ
  fatigueZone : Zone
  deriving DecidableEq, Repr

/-- The record `reset()` installs for every tracked movement. -/
def initFatigueData : FatigueData :=
  { velocities := [], baselineVelocity := none, currentVelocity := none,
    peakVelocity := none, dropFromBaseline := 0, dropFromPeak := 0,
    thresholdsCrossed := [], repCount := 0, fatigueZone := .FRESH }

/-- JavaScript truthiness of a number-or-null value: `null` and `0` are
falsy, everything else truthy. -/
def numTruthy : Option ℚ → Bool
  | none => false
  | some q => q != 0

/-- `calculateAverage(arr)`: mean of a list, `0` for the empty list. -/
def calculateAverage (l : List ℚ) : ℚ :=
  if l = [] then 0 else l.sum / l.length

/-- `calculatePercentDrop(reference, current)`: percentage drop, clamped at
`0` from below; `0` when the reference is falsy. -/
def calculatePercentDrop (reference current : ℚ) : ℚ :=
  if reference = 0 then 0 else max 0 ((reference - current) / reference * 100)

/-- `determineFatigueZone(dropPercent)`: the five ordered bands. -/
def determineFatigueZone (dropPercent : ℚ) : Zone :=
  if dropPercent < 5 then .FRESH
  else if dropPercent < 10 then .MILD
  else if dropPercent < 20 then .MODERATE
  else if dropPercent < 30 then .HIGH
  else .CRITICAL

/-- The loop body of `checkThresholds`: scan the configured thresholds in
order, appending each one that the current drop reaches and that is not
already recorded.  The membership test sees the list as mutated so far,
exactly as the JavaScript loop does. -/
def crossStep (drop : ℚ) (acc : List ℚ) (t : ℚ) : List ℚ :=
  if t ≤ drop ∧ t ∉ acc then acc ++ [t] else acc

def crossFold (ts : List ℚ) (drop : ℚ) (crossed : List ℚ) : List ℚ :=
  ts.foldl (crossStep drop) crossed

/-- The `peakVelocity` update of `addRep`: replaced when the stored peak is
falsy (`null` or `0`) or exceeded by the new velocity. -/
def peakUpdate (peak : Option ℚ) (v : ℚ) : Option ℚ :=
  match peak with
  | none => some v
  | some p => if p = 0 ∨ v > p then some v else some p

/-- `addRep(movementType, velocity)` restricted to the one per-movement
record it touches.  Field updates follow the source order: push velocity,
bump `repCount`, update `peakVelocity` (replaced when falsy or exceeded),
compute the baseline exactly when `repCount === baselineReps`, and, once
the baseline is truthy, compute both drops, scan the alert thresholds and
classify the fatigue zone. -/
def fatigueAddRep (cfg : FatigueConfig) (d : FatigueData) (v : ℚ) : FatigueData :=
  let velocities := d.velocities ++ [v]
  let repCount := d.repCount + 1
  let peak : Option ℚ := peakUpdate d.peakVelocity v
  let baseline : Option ℚ :=
    if repCount = cfg.baselineReps then some (calculateAverage velocities)
    else d.baselineVelocity
  if numTruthy baseline then
    let dropB := calculatePercentDrop (baseline.getD 0) v
    { velocities := velocities, baselineVelocity := baseline,
      currentVelocity := some v, peakVelocity := peak,
      dropFromBaseline := dropB,
      dropFromPeak := calculatePercentDrop (peak.getD 0) v,
      thresholdsCrossed := crossFold cfg.alertThresholds dropB d.thresholdsCrossed,
      repCount := repCount, fatigueZone := determineFatigueZone dropB }
  else
    { velocities := velocities, baselineVelocity := baseline,
      currentVelocity := some v, peakVelocity := peak,
      dropFromBaseline := d.dropFromBaseline, dropFromPeak := d.dropFromPeak,
      thresholdsCrossed := d.thresholdsCrossed,
      repCount := repCount, fatigueZone := d.fatigueZone }

/-- The whole tracker: one record per movement type.  (`addRep` on an
unknown type returns early; with `Movement` closed every type is known.) -/
def FatigueTracker : Type := Movement → FatigueData

/-- `reset()`: every movement gets the initial record. -/
def initTracker : FatigueTracker := fun _ => initFatigueData

/-- One `addRep(m, v)` call at the tracker level: only `m`'s record moves. -/
def trackerAddRep (cfg : FatigueConfig) (t : FatigueTracker) (m : Movement)
    (v : ℚ) : FatigueTracker :=
  fun m' => if m' = m then fatigueAddRep cfg (t m) v else t m'

/-- A sequence of `addRep` calls (possibly interleaving movement types). -/
def runTracker (cfg : FatigueConfig) (t : FatigueTracker)
    (calls : List (Movement × ℚ)) : FatigueTracker :=
  calls.foldl (fun t c => trackerAddRep cfg t c.1 c.2) t

/-- The velocities of the calls that address movement `m`, in order. -/
def velocitiesOf (m : Movement) (calls : List (Movement × ℚ)) : List ℚ :=
  calls.filterMap fun c => if c.1 = m then some c.2 else none

/-! ### Basic projection lemmas for `fatigueAddRep` -/

theorem fatigueAddRep_repCount (cfg : FatigueConfig) (d : FatigueData) (v : ℚ) :
    (fatigueAddRep cfg d v).repCount = d.repCount + 1 := by
  unfold fatigueAddRep
  dsimp only
  split <;> split <;> rfl

theorem fatigueAddRep_velocities (cfg : FatigueConfig) (d : FatigueData) (v : ℚ) :
    (fatigueAddRep cfg d v).velocities = d.velocities ++ [v] := by
  unfold fatigueAddRep
  dsimp only
  split <;> split <;> rfl

theorem fatigueAddRep_baseline (cfg : FatigueConfig) (d : FatigueData) (v : ℚ) :
    (fatigueAddRep cfg d v).baselineVelocity =
      if d.repCount + 1 = cfg.baselineReps
      then some (calculateAverage (d.velocities ++ [v]))
      else d.baselineVelocity := by
  unfold fatigueAddRep
  dsimp only
  split <;> split <;> rfl

theorem fatigueAddRep_crossed_shape (cfg : FatigueConfig) (d : FatigueData) (v : ℚ) :
    (fatigueAddRep cfg d v).thresholdsCrossed = d.thresholdsCrossed ∨
    ∃ drop, (fatigueAddRep cfg d v).thresholdsCrossed =
      crossFold cfg.alertThresholds drop d.thresholdsCrossed := by
  unfold fatigueAddRep
  dsimp only
  split <;> split <;> first
  | exact Or.inr ⟨_, rfl⟩
  | exact Or.inl rfl

/-! ### The tracker-level fold restricted to one movement -/

theorem runTracker_apply (cfg : FatigueConfig) (t : FatigueTracker)
    (calls : List (Movement × ℚ)) (m : Movement) :
    runTracker cfg t calls m = (velocitiesOf m calls).foldl (fatigueAddRep cfg) (t m) := by
  induction calls generalizing t with
  | nil => rfl
  | cons c calls ih =>
    obtain ⟨cm, cv⟩ := c
    have hstep : runTracker cfg t ((cm, cv) :: calls)
        = runTracker cfg (trackerAddRep cfg t cm cv) calls := rfl
    rw [hstep, ih]
    simp only [velocitiesOf, List.filterMap_cons]
    by_cases hm : cm = m
    · subst hm
      simp [trackerAddRep]
    · simp only [trackerAddRep, if_neg hm]
      rw [if_neg (fun h => hm h.symm)]

/-- Core characterization of a per-movement `addRep` sequence: velocities
accumulate in order, `repCount` counts them, and the baseline is `none`
until the configured rep count is reached and from then on the mean of
exactly the first `baselineReps` velocities. -/
theorem fatigueFold_core (cfg : FatigueConfig) (hK : cfg.baselineReps ≠ 0)
    (vs : List ℚ) :
    (vs.foldl (fatigueAddRep cfg) initFatigueData).repCount = vs.length ∧
    (vs.foldl (fatigueAddRep cfg) initFatigueData).velocities = vs ∧
    (vs.foldl (fatigueAddRep cfg) initFatigueData).baselineVelocity =
      (if cfg.baselineReps ≤ vs.length
       then some (calculateAverage (vs.take cfg.baselineReps))
       else none) := by
  induction vs using List.reverseRecOn with
  | nil =>
    refine ⟨rfl, rfl, ?_⟩
    rw [if_neg]
    · rfl
    · simp only [List.length_nil, Nat.le_zero]
      exact hK
  | append_singleton l a ih =>
    obtain ⟨ihc, ihv, ihb⟩ := ih
    rw [List.foldl_append, List.foldl_cons, List.foldl_nil]
    refine ⟨?_, ?_, ?_⟩
    · rw [fatigueAddRep_repCount, ihc, List.length_append, List.length_singleton]
    · rw [fatigueAddRep_velocities, ihv]
    · rw [fatigueAddRep_baseline, ihc, ihv, ihb]
      by_cases h1 : l.length + 1 = cfg.baselineReps
      · rw [if_pos h1, if_pos (by simpa using h1.ge)]
        rw [List.take_of_length_le (by simpa using h1.le)]
      · rw [if_neg h1]
        by_cases h2 : cfg.baselineReps ≤ l.length
        · rw [if_pos h2, if_pos (by simp; omega)]
          rw [List.take_append_of_le_length h2]
        · rw [if_neg h2, if_neg (by simp; omega)]

/-! ### Threshold-crossing lemmas (`checkThresholds` loop) -/

theorem crossStep_cases (drop : ℚ) (acc : List ℚ) (t : ℚ) :
    crossStep drop acc t = acc ∨
    (crossStep drop acc t = acc ++ [t] ∧ t ≤ drop ∧ t ∉ acc) := by
  unfold crossStep
  split
  · exact Or.inr ⟨rfl, by assumption⟩
  · exact Or.inl rfl

theorem crossFold_cons (u : ℚ) (ts : List ℚ) (drop : ℚ) (acc : List ℚ) :
    crossFold (u :: ts) drop acc = crossFold ts drop (crossStep drop acc u) := rfl

/-- The scan only appends: what was recorded stays, in place. -/
theorem crossFold_extends (ts : List ℚ) (drop : ℚ) (acc : List ℚ) :
    acc <+: crossFold ts drop acc := by
  induction ts generalizing acc with
  | nil => exact List.prefix_rfl
  | cons t ts ih =>
    rw [crossFold_cons]
    refine List.IsPrefix.trans ?_ (ih (crossStep drop acc t))
    rcases crossStep_cases drop acc t with h | ⟨h, _⟩ <;> rw [h]
    exact List.prefix_append acc [t]

theorem mem_crossFold_of_mem (ts : List ℚ) (drop : ℚ) (acc : List ℚ) {a : ℚ}
    (h : a ∈ acc) : a ∈ crossFold ts drop acc :=
  (crossFold_extends ts drop acc).sublist.subset h

/-- Every configured threshold the current drop reaches is recorded after
the scan. -/
theorem crossFold_complete (ts : List ℚ) (drop : ℚ) (acc : List ℚ) (t : ℚ)
    (ht : t ∈ ts) (hd : t ≤ drop) : t ∈ crossFold ts drop acc := by
  induction ts generalizing acc with
  | nil => cases ht
  | cons u ts ih =>
    rw [crossFold_cons]
    rcases List.mem_cons.mp ht with h | h
    · subst h
      refine mem_crossFold_of_mem ts drop _ ?_
      unfold crossStep
      split
      · exact List.mem_append_right _ (List.mem_singleton.mpr rfl)
      · next hneg =>
        rcases not_and_or.mp hneg with h1 | h1
        · exact absurd hd h1
        · exact not_not.mp h1
    · exact ih _ h

/-- Everything recorded after the scan was recorded before or is a
configured threshold the current drop reaches. -/
theorem crossFold_src (ts : List ℚ) (drop : ℚ) (acc : List ℚ) (u : ℚ)
    (hu : u ∈ crossFold ts drop acc) : u ∈ acc ∨ (u ∈ ts ∧ u ≤ drop) := by
  induction ts generalizing acc with
  | nil => exact Or.inl hu
  | cons t ts ih =>
    rw [crossFold_cons] at hu
    rcases ih _ hu with h | ⟨h1, h2⟩
    · rcases crossStep_cases drop acc t with hs | ⟨hs, hd, _⟩
      · exact Or.inl (hs ▸ h)
      · rw [hs] at h
        rcases List.mem_append.mp h with h | h
        · exact Or.inl h
        · exact Or.inr ⟨List.mem_cons.mpr (Or.inl (List.mem_singleton.mp h)), (List.mem_singleton.mp h) ▸ hd⟩
    · exact Or.inr ⟨List.mem_cons_of_mem t h1, h2⟩

/-- Main scan invariant.  `P` is the prefix of the configured thresholds
already scanned, `S` the suffix still to scan, `crossed0` the list before
the scan started and `acc` its current value.  The recorded list stays
sorted because a newly appended threshold exceeds everything recorded:
smaller configured thresholds were either recorded by an earlier drop
(closure over `crossed0`) or by this very scan pass (they come earlier in
the sorted configuration). -/
theorem crossFold_scan (drop : ℚ) (S : List ℚ) (P acc crossed0 : List ℚ)
    (hsort : (P ++ S).Sorted (· < ·))
    (haccs : acc.Sorted (· < ·))
    (hbase : crossed0 <+: acc)
    (hinv0 : ∀ t ∈ P ++ S, ∀ u ∈ crossed0, t ≤ u → t ∈ crossed0)
    (hdone : ∀ t ∈ P, t ≤ drop → t ∈ acc)
    (hsrc : ∀ u ∈ acc, u ∈ crossed0 ∨ (u ∈ P ∧ u ≤ drop)) :
    (crossFold S drop acc).Sorted (· < ·) := by
  induction S generalizing P acc with
  | nil => exact haccs
  | cons t S ih =>
    rw [crossFold_cons]
    have hassoc : (P ++ [t]) ++ S = P ++ t :: S := by simp
    have htmem : t ∈ P ++ t :: S := List.mem_append_right _ (List.mem_cons_self t S)
    by_cases hc : t ≤ drop ∧ t ∉ acc
    · have hstep : crossStep drop acc t = acc ++ [t] := by rw [crossStep, if_pos hc]
      rw [hstep]
      have hlt : ∀ u ∈ acc, u < t := by
        intro u hu
        rcases hsrc u hu with h0 | ⟨hP, _⟩
        · by_contra hge
          have htu : t ≤ u := le_of_not_lt hge
          have : t ∈ crossed0 := hinv0 t htmem u h0 htu
          exact hc.2 (hbase.sublist.subset this)
        · exact (List.pairwise_append.mp hsort).2.2 u hP t (List.mem_cons_self t S)
      apply ih (P := P ++ [t])
      · rw [hassoc]; exact hsort
      · refine List.pairwise_append.mpr ⟨haccs, List.pairwise_singleton _ _, ?_⟩
        intro a ha b hb
        rw [List.mem_singleton.mp hb]
        exact hlt a ha
      · exact hbase.trans (List.prefix_append acc [t])
      · intro x hx
        rw [hassoc] at hx
        exact hinv0 x hx
      · intro x hx hxd
        rcases List.mem_append.mp hx with h | h
        · exact List.mem_append_left _ (hdone x h hxd)
        · exact List.mem_append_right _ h
      · intro u hu
        rcases List.mem_append.mp hu with h | h
        · rcases hsrc u h with h0 | ⟨hP, hd0⟩
          · exact Or.inl h0
          · exact Or.inr ⟨List.mem_append_left _ hP, hd0⟩
        · rw [List.mem_singleton.mp h]
          exact Or.inr ⟨List.mem_append_right _ (List.mem_singleton.mpr rfl), hc.1⟩
    · have hstep : crossStep drop acc t = acc := by rw [crossStep, if_neg hc]
      rw [hstep]
      apply ih (P := P ++ [t])
      · rw [hassoc]; exact hsort
      · exact haccs
      · exact hbase
      · intro x hx
        rw [hassoc] at hx
        exact hinv0 x hx
      · intro x hx hxd
        rcases List.mem_append.mp hx with h | h
        · exact hdone x h hxd
        · rcases not_and_or.mp hc with h1 | h1
          · exact absurd ((List.mem_singleton.mp h) ▸ hxd) h1
          · exact (List.mem_singleton.mp h) ▸ not_not.mp h1
      · intro u hu
        rcases hsrc u hu with h0 | ⟨hP, hd0⟩
        · exact Or.inl h0
        · exact Or.inr ⟨List.mem_append_left _ hP, hd0⟩

/-- Invariant carried across `addRep` calls: the recorded threshold list is
strictly sorted, and downward closed relative to the configured list (a
smaller configured threshold can never be missing above a recorded one). -/
def ThreshInv (ts crossed : List ℚ) : Prop :=
  crossed.Sorted (· < ·) ∧ ∀ t ∈ ts, ∀ u ∈ crossed, t ≤ u → t ∈ crossed

theorem crossFold_inv (ts : List ℚ) (drop : ℚ) (crossed : List ℚ)
    (hts : ts.Sorted (· < ·)) (h : ThreshInv ts crossed) :
    ThreshInv ts (crossFold ts drop crossed) := by
  obtain ⟨hs, hcl⟩ := h
  constructor
  · exact crossFold_scan drop ts [] crossed crossed (by simpa) hs List.prefix_rfl
      (by simpa using hcl) (by simp) (fun u hu => Or.inl hu)
  · intro t ht u hu htu
    rcases crossFold_src ts drop crossed u hu with h0 | ⟨h1, h2⟩
    · exact mem_crossFold_of_mem ts drop crossed (hcl t ht u h0 htu)
    · exact crossFold_complete ts drop crossed t ht (htu.trans h2)

theorem fatigueAddRep_crossed_extends (cfg : FatigueConfig) (d : FatigueData) (v : ℚ) :
    d.thresholdsCrossed <+: (fatigueAddRep cfg d v).thresholdsCrossed := by
  rcases fatigueAddRep_crossed_shape cfg d v with h | ⟨drop, h⟩ <;> rw [h]
  exact crossFold_extends _ _ _

theorem fatigueAddRep_crossed_inv (cfg : FatigueConfig) (d : FatigueData) (v : ℚ)
    (hts : cfg.alertThresholds.Sorted (· < ·))
    (h : ThreshInv cfg.alertThresholds d.thresholdsCrossed) :
    ThreshInv cfg.alertThresholds (fatigueAddRep cfg d v).thresholdsCrossed := by
  rcases fatigueAddRep_crossed_shape cfg d v with h0 | ⟨drop, h0⟩ <;> rw [h0]
  · exact h
  · exact crossFold_inv _ drop _ hts h

theorem trackerAddRep_crossed_extends (cfg : FatigueConfig) (t : FatigueTracker)
    (c : Movement × ℚ) (m : Movement) :
    (t m).thresholdsCrossed <+: (trackerAddRep cfg t c.1 c.2 m).thresholdsCrossed := by
  unfold trackerAddRep
  split
  · next h => rw [h]; exact fatigueAddRep_crossed_extends cfg (t c.1) c.2
  · exact List.prefix_rfl

theorem runTracker_crossed_extends (cfg : FatigueConfig) (t : FatigueTracker)
    (calls : List (Movement × ℚ)) (m : Movement) :
    (t m).thresholdsCrossed <+: (runTracker cfg t calls m).thresholdsCrossed := by
  induction calls generalizing t with
  | nil => exact List.prefix_rfl
  | cons c calls ih =>
    exact (trackerAddRep_crossed_extends cfg t c m).trans (ih (trackerAddRep cfg t c.1 c.2))

theorem runTracker_crossed_inv (cfg : FatigueConfig) (t : FatigueTracker)
    (calls : List (Movement × ℚ)) (m : Movement)
    (hts : cfg.alertThresholds.Sorted (· < ·))
    (h : ThreshInv cfg.alertThresholds ((t m).thresholdsCrossed)) :
    ThreshInv cfg.alertThresholds ((runTracker cfg t calls m).thresholdsCrossed) := by
  induction calls generalizing t with
  | nil => exact h
  | cons c calls ih =>
    refine ih (trackerAddRep cfg t c.1 c.2) ?_
    unfold trackerAddRep
    split
    · next h0 => exact fatigueAddRep_crossed_inv cfg (t c.1) c.2 hts (h0 ▸ h)
    · exact h

/-! ## Claims C4, C5, C6 — fatigue tracker -/

/-- C4.  For every movement type and every `addRep` sequence within one
reset epoch, the baseline is `none` before the K-th rep of that type and,
from the K-th rep on, exactly the mean of the first K recorded velocities
of that type — so it is assigned exactly once (when the K-th rep arrives)
and never modified by a later rep until a reset.  `K = baselineReps`
(default 3); the JavaScript `config.baselineReps || 3` default makes
`K = 0` impossible, which is the hypothesis `hK`. -/
theorem fatigue_baseline_once (cfg : FatigueConfig) (hK : cfg.baselineReps ≠ 0)
    (calls : List (Movement × ℚ)) (m : Movement) :
    (runTracker cfg initTracker calls m).baselineVelocity =
      (if cfg.baselineReps ≤ (velocitiesOf m calls).length
       then some (calculateAverage ((velocitiesOf m calls).take cfg.baselineReps))
       else none) := by
  rw [runTracker_apply]
  exact (fatigueFold_core cfg hK (velocitiesOf m calls)).2.2

/-- Witness for C4: the scenario of the spec, at the default configuration
(K = 3): after reps [2, 2.1, 1.9, 1.5] the baseline is the mean of the
first three, 2 m/s, and the fourth rep did not change it. -/
theorem fatigue_baseline_once_witness :
    (runTracker defaultFatigueConfig initTracker
        [(.PRESS, 2), (.PRESS, 2.1), (.PRESS, 1.9), (.PRESS, 1.5)] .PRESS).baselineVelocity =
      (if defaultFatigueConfig.baselineReps ≤
          (velocitiesOf .PRESS [(.PRESS, 2), (.PRESS, 2.1), (.PRESS, 1.9), (.PRESS, 1.5)]).length
       then some (calculateAverage
          ((velocitiesOf .PRESS [(.PRESS, 2), (.PRESS, 2.1), (.PRESS, 1.9), (.PRESS, 1.5)]).take
            defaultFatigueConfig.baselineReps))
       else none) ∧
    (runTracker defaultFatigueConfig initTracker
        [(.PRESS, 2), (.PRESS, 2.1), (.PRESS, 1.9), (.PRESS, 1.5)] .PRESS).baselineVelocity = some 2 :=
  ⟨fatigue_baseline_once defaultFatigueConfig (by decide) _ .PRESS,
   by with_unfolding_all decide⟩

/-- C5.  Within one reset epoch, for every movement type: the recorded
threshold list is strictly ascending (hence each configured threshold is
recorded — and alerted, alerts fire exactly on recording — at most once),
and over any continuation of the `addRep` sequence the already-recorded
list stays a prefix of the later one, so the crossed set only grows.
Hypothesis: the configured thresholds are strictly ascending (the default
`[10, 20, 30]` is). -/
theorem fatigue_thresholds_monotone (cfg : FatigueConfig)
    (hts : cfg.alertThresholds.Sorted (· < ·))
    (calls : List (Movement × ℚ)) (m : Movement) :
    ((runTracker cfg initTracker calls m).thresholdsCrossed.Sorted (· < ·)) ∧
    ((runTracker cfg initTracker calls m).thresholdsCrossed.Nodup) ∧
    (∀ more : List (Movement × ℚ),
      (runTracker cfg initTracker calls m).thresholdsCrossed <+:
        (runTracker cfg (runTracker cfg initTracker calls) more m).thresholdsCrossed) := by
  have hinv : ThreshInv cfg.alertThresholds
      ((runTracker cfg initTracker calls m).thresholdsCrossed) := by
    refine runTracker_crossed_inv cfg initTracker calls m hts ?_
    exact ⟨List.sorted_nil, by intro t ht u hu; cases hu⟩
  refine ⟨hinv.1, hinv.1.imp ne_of_lt, ?_⟩
  intro more
  exact runTracker_crossed_extends cfg (runTracker cfg initTracker calls) more m

/-- Witness for C5: default configuration, the spec's PRESS sequence, one
further rep appended. -/
theorem fatigue_thresholds_monotone_witness :
    ((runTracker defaultFatigueConfig initTracker
        [(.PRESS, 2), (.PRESS, 2.1), (.PRESS, 1.9), (.PRESS, 1.5)] .PRESS).thresholdsCrossed.Sorted (· < ·)) ∧
    ((runTracker defaultFatigueConfig initTracker
        [(.PRESS, 2), (.PRESS, 2.1), (.PRESS, 1.9), (.PRESS, 1.5)] .PRESS).thresholdsCrossed.Nodup) ∧
    (∀ more : List (Movement × ℚ),
      (runTracker defaultFatigueConfig initTracker
          [(.PRESS, 2), (.PRESS, 2.1), (.PRESS, 1.9), (.PRESS, 1.5)] .PRESS).thresholdsCrossed <+:
        (runTracker defaultFatigueConfig
          (runTracker defaultFatigueConfig initTracker
            [(.PRESS, 2), (.PRESS, 2.1), (.PRESS, 1.9), (.PRESS, 1.5)]) more .PRESS).thresholdsCrossed) :=
  fatigue_thresholds_monotone defaultFatigueConfig
    (by simp [defaultFatigueConfig, List.sorted_cons]; norm_num)
    [(.PRESS, 2), (.PRESS, 2.1), (.PRESS, 1.9), (.PRESS, 1.5)] .PRESS

/-- The spec's C6 scenario, first three PRESS reps. -/
def c6afterThree : FatigueTracker :=
  runTracker defaultFatigueConfig initTracker [(.PRESS, 2), (.PRESS, 2.1), (.PRESS, 1.9)]

/-- The spec's C6 scenario after the fourth PRESS rep at 1.5 m/s. -/
def c6afterFour : FatigueTracker :=
  trackerAddRep defaultFatigueConfig c6afterThree .PRESS 1.5

/-- C6.  Three PRESS reps [2.0, 2.1, 1.9] m/s set the PRESS baseline to
exactly 2 m/s (and cross no threshold); the fourth rep at 1.5 m/s yields a
25 % drop from baseline, HIGH fatigue zone, and crosses the 10 % and 20 %
thresholds in that one update, each recorded exactly once. -/
theorem fatigue_scenario_press :
    (c6afterThree .PRESS).baselineVelocity = some 2 ∧
    (c6afterThree .PRESS).thresholdsCrossed = [] ∧
    (c6afterFour .PRESS).baselineVelocity = some 2 ∧
    (c6afterFour .PRESS).dropFromBaseline = 25 ∧
    (c6afterFour .PRESS).fatigueZone = .HIGH ∧
    (c6afterFour .PRESS).thresholdsCrossed = [10, 20] := by
  with_unfolding_all decide

/-! ## Set/rest timing tracker (`SetTimingTracker`)

The clock is injected: the `Date.now()` value a method would read is a
parameter. (`onSetEnd` reads the clock twice in the source — once for the
set end and once in `startRestTimer`, microseconds apart within one
synchronous frame — modelled as the same instant.)  JavaScript arithmetic
on a possibly-`null` timestamp coerces `null` to `0`, modelled by
`Option.getD 0`. -/

structure CurrentSet where
  number : ℕ
  startTime : Option ℚ
  endTime : Option ℚ
  repCount : ℕ
  isActive : Bool
  deriving DecidableEq, Repr

structure RestTimer where
  startTime : Option ℚ
  isRunning : Bool
  elapsed : ℚ
  deriving DecidableEq, Repr

/-- A completed set record (`workRest` is the source's work:rest quotient
field). -/
structure SetRecord where
  number : ℕ
  duration : ℚ
  repCount : ℕ
  restBefore : ℚ
  workRest : ℚ
  startTime : ℚ
  endTime : ℚ
  deriving DecidableEq, Repr

structure SessionStats where
  totalWorkTime : ℚ
  totalRestTime : ℚ
  avgWorkTime : ℚ
  avgRestTime : ℚ
  avgWorkRest : ℚ
  setCount : ℕ
  deriving DecidableEq, Repr

structure TimingState where
  currentSet : CurrentSet
  restTimer : RestTimer
  history : List SetRecord
  session : SessionStats
  deriving DecidableEq, Repr

/-- `reset()` of the timing tracker. -/
def timingReset : TimingState :=
  { currentSet := { number := 0, startTime := none, endTime := none,
                    repCount := 0, isActive := false },
    restTimer := { startTime := none, isRunning := false, elapsed := 0 },
    history := [],
    session := { totalWorkTime := 0, totalRestTime := 0, avgWorkTime := 0,
                 avgRestTime := 0, avgWorkRest := 0, setCount := 0 } }

/-- `updateSessionAverages()`. -/
def updateSessionAverages (st : TimingState) : TimingState :=
  if st.session.setCount = 0 then st
  else
    let avgWork := st.session.totalWorkTime / st.session.setCount
    let setsWithRest := st.history.filter fun s => s.restBefore > 0
    if setsWithRest ≠ [] then
      let avgRest := (setsWithRest.map SetRecord.restBefore).sum / setsWithRest.length
      let sess := { st.session with avgWorkTime := avgWork, avgRestTime := avgRest, avgWorkRest := avgWork / avgRest }
      { st with session := sess }
    else
      { st with session := { st.session with avgWorkTime := avgWork } }

/-- `startRestTimer()`, at the injected instant `now`. -/
def startRestTimer (st : TimingState) (now : ℚ) : TimingState :=
  { st with restTimer := { startTime := some now, isRunning := true, elapsed := 0 } }

/-- `onSetEnd()`: discard when no set is active or it has zero reps;
otherwise close the set, record duration and the rest gap before it,
append to history, update session statistics and start the rest timer. -/
def onSetEnd (st : TimingState) (now : ℚ) : Option SetRecord × TimingState :=
  if ¬ st.currentSet.isActive ∨ st.currentSet.repCount = 0 then (none, st)
  else
    let cs := { st.currentSet with endTime := some now, isActive := false }
    let setDuration := now - cs.startTime.getD 0
    let restBeforeSet : ℚ :=
      match st.history.getLast? with
      | some lastSet => cs.startTime.getD 0 - lastSet.endTime
      | none => 0
    let completedSet : SetRecord :=
      { number := cs.number, duration := setDuration, repCount := cs.repCount,
        restBefore := restBeforeSet,
        workRest := if restBeforeSet > 0 then setDuration / restBeforeSet else 0,
        startTime := cs.startTime.getD 0, endTime := now }
    let sess1 := { st.session with setCount := st.session.setCount + 1, totalWorkTime := st.session.totalWorkTime + setDuration, totalRestTime := if restBeforeSet > 0 then st.session.totalRestTime + restBeforeSet else st.session.totalRestTime }
    let st1 : TimingState :=
      { st with currentSet := cs, history := st.history ++ [completedSet], session := sess1 }
    let st2 := updateSessionAverages st1
    (some completedSet, startRestTimer st2 now)

/-- `startNewSet()`. -/
def startNewSet (st : TimingState) (now : ℚ) : TimingState :=
  let cs : CurrentSet := { number := st.session.setCount + 1, startTime := some now, endTime := none, repCount := 0, isActive := true }
  { st with currentSet := cs }

/-- `stopRestTimer()`. -/
def stopRestTimer (st : TimingState) (now : ℚ) : TimingState :=
  if ¬ st.restTimer.isRunning then st
  else { st with restTimer := { st.restTimer with elapsed := now - st.restTimer.startTime.getD 0, isRunning := false } }

/-- `onRep()`: stop a running rest timer and open a new set, or open a set
if none is active, then count the rep. -/
def onRep (st : TimingState) (now : ℚ) : TimingState :=
  let st1 := if st.restTimer.isRunning then startNewSet (stopRestTimer st now) now else st
  let st2 := if ¬ st1.currentSet.isActive then startNewSet st1 now else st1
  { st2 with currentSet := { st2.currentSet with repCount := st2.currentSet.repCount + 1 } }

/-! ## Claim C7 — empty boundary events are discarded -/

/-- C7.  A boundary event (`onSetEnd`) with no active set or an active set
of zero reps returns `null` and leaves the tracker state — history,
session statistics, averages, rest timer — exactly unchanged. -/
theorem timing_empty_set_discarded (st : TimingState) (now : ℚ)
    (h : st.currentSet.isActive = false ∨ st.currentSet.repCount = 0) :
    onSetEnd st now = (none, st) := by
  unfold onSetEnd
  rw [if_pos]
  rcases h with h | h
  · exact Or.inl (by rw [h]; exact Bool.false_ne_true)
  · exact Or.inr h

/-- Witness for C7: a freshly reset tracker at an arbitrary concrete
instant. -/
theorem timing_empty_set_discarded_witness :
    onSetEnd timingReset 12345 = (none, timingReset) :=
  timing_empty_set_discarded timingReset 12345 (Or.inl rfl)

/-! ## Physics engine (`PhysicsEngine`, Iron Eye variant) -/

structure PhysMetrics where
  power : ℚ
  work : ℚ
  velocity : ℚ
  displacement : ℚ
  deriving DecidableEq, Repr

structure PhysState where
  kettlebellMass : ℚ
  totalWork : ℚ
  lastHeight : Option ℚ
  deriving DecidableEq, Repr

def gravity : ℚ := 9.81

/-- The constructor (`kettlebellWeightKg` default 16). -/
def physInit (kettlebellWeightKg : ℚ) : PhysState :=
  { kettlebellMass := kettlebellWeightKg, totalWork := 0, lastHeight := none }

/-- `calculatePower(velocity)`: zero for non-positive (non-concentric)
velocity, else force times velocity. -/
def calculatePower (st : PhysState) (velocity : ℚ) : ℚ :=
  if velocity ≤ 0 then 0 else st.kettlebellMass * gravity * velocity

/-- `calculateWork(currentHeight, startHeight)`: zero for non-positive
displacement. -/
def calculateWork (st : PhysState) (currentHeight startHeight : ℚ) : ℚ :=
  if currentHeight - startHeight ≤ 0 then 0
  else st.kettlebellMass * gravity * (currentHeight - startHeight)

/-- `updateMetrics(height, velocity, isNewRep)`. -/
def updateMetrics (st : PhysState) (height velocity : ℚ) (isNewRep : Bool) :
    PhysMetrics × PhysState :=
  let st0 := if isNewRep then { st with lastHeight := none, totalWork := 0 } else st
  let power := calculatePower st0 velocity
  match st0.lastHeight with
  | some lh =>
    let displacement := height - lh
    if displacement > 0 then
      let st1 := { st0 with totalWork := st0.totalWork + calculateWork st0 height lh, lastHeight := some height }
      ({ power := power, work := st1.totalWork, velocity := velocity, displacement := displacement }, st1)
    else
      let st1 := { st0 with lastHeight := some height }
      ({ power := power, work := st1.totalWork, velocity := velocity, displacement := displacement }, st1)
  | none =>
    let st1 := { st0 with lastHeight := some height }
    ({ power := power, work := st1.totalWork, velocity := velocity, displacement := 0 }, st1)

/-- `reset()`. -/
def physReset (st : PhysState) : PhysState :=
  { st with totalWork := 0, lastHeight := none }

theorem updateMetrics_mass (st : PhysState) (height velocity : ℚ) (b : Bool) :
    ((updateMetrics st height velocity b).2).kettlebellMass = st.kettlebellMass := by
  unfold updateMetrics
  dsimp only
  split <;> split <;> first | rfl | (split <;> rfl)

theorem updateMetrics_work_le (st : PhysState) (height velocity : ℚ)
    (hm : 0 ≤ st.kettlebellMass) :
    st.totalWork ≤ ((updateMetrics st height velocity false).2).totalWork := by
  unfold updateMetrics
  dsimp only
  split
  · next lh heq =>
    split
    · next hd =>
      have hw : 0 ≤ calculateWork st height lh := by
        unfold calculateWork
        split
        · exact le_refl 0
        · next hle =>
          have h0 : 0 ≤ height - lh := le_of_lt (lt_of_not_le hle)
          have hg : (0:ℚ) ≤ gravity := by norm_num [gravity]
          exact mul_nonneg (mul_nonneg hm hg) h0
      simpa using hw
    · exact le_refl _
  · exact le_refl _

/-! ## Claim C10 — physics metrics invariants -/

/-- C10.  Between resets (no `reset()` call, `isNewRep = false`): the
cumulative work is monotonically non-decreasing, the returned `work` field
is exactly the cumulative value, a frame with non-positive height change
adds no work, the reported instantaneous power is zero whenever the
velocity is non-positive, and monotonicity holds over every frame
sequence.  The hypothesis is the physical one the constructor establishes:
a non-negative kettlebell mass. -/
theorem physics_work_monotone (st : PhysState) (height velocity : ℚ)
    (hm : 0 ≤ st.kettlebellMass) :
    st.totalWork ≤ ((updateMetrics st height velocity false).2).totalWork ∧
    ((updateMetrics st height velocity false).1).work =
      ((updateMetrics st height velocity false).2).totalWork ∧
    (∀ lh, st.lastHeight = some lh → height - lh ≤ 0 →
      ((updateMetrics st height velocity false).2).totalWork = st.totalWork) ∧
    (velocity ≤ 0 → ((updateMetrics st height velocity false).1).power = 0) ∧
    (∀ frames : List (ℚ × ℚ),
      st.totalWork ≤
        ((frames.foldl (fun s p => (updateMetrics s p.1 p.2 false).2) st)).totalWork) := by
  refine ⟨updateMetrics_work_le st height velocity hm, ?_, ?_, ?_, ?_⟩
  · unfold updateMetrics
    dsimp only
    split
    · split <;> rfl
    · rfl
  · intro lh hlh hd
    unfold updateMetrics
    simp only [if_neg Bool.false_ne_true]
    rw [hlh]
    dsimp only
    rw [if_neg (not_lt.mpr hd)]
  · intro hv
    unfold updateMetrics calculatePower
    dsimp only
    rw [if_pos hv]
    split
    · split <;> rfl
    · rfl
  · intro frames
    induction frames generalizing st with
    | nil => exact le_refl _
    | cons p frames ih =>
      rw [List.foldl_cons]
      refine le_trans (updateMetrics_work_le st p.1 p.2 hm) ?_
      exact ih _ (by rw [updateMetrics_mass]; exact hm)

/-- Witness for C10: default 16 kg engine, first frame with descending
height and non-positive velocity. -/
theorem physics_work_monotone_witness :
    (physInit 16).totalWork ≤ ((updateMetrics (physInit 16) 1 (-1) false).2).totalWork ∧
    ((updateMetrics (physInit 16) 1 (-1) false).1).work =
      ((updateMetrics (physInit 16) 1 (-1) false).2).totalWork ∧
    (∀ lh, (physInit 16).lastHeight = some lh → 1 - lh ≤ 0 →
      ((updateMetrics (physInit 16) 1 (-1) false).2).totalWork = (physInit 16).totalWork) ∧
    ((-1 : ℚ) ≤ 0 → ((updateMetrics (physInit 16) 1 (-1) false).1).power = 0) ∧
    (∀ frames : List (ℚ × ℚ),
      (physInit 16).totalWork ≤
        ((frames.foldl (fun s p => (updateMetrics s p.1 p.2 false).2) (physInit 16))).totalWork) :=
  physics_work_monotone (physInit 16) 1 (-1) (by norm_num [physInit])

/-! ## Calibration, Iron Eye variant (`core/Calibration.ts`)

`captureFrame` records the vertical ankle-to-nose pixel distance of each
frame; `finalize(userHeightCm, canvasHeight)` averages the recorded
frames, scales the user's height by `1 − HEAD_OFFSET_MULTIPLIER`
(`0.12`: the ankle-to-nose span is 88 % of standing height) and returns
the pixels-per-meter factor.  A `finalize` with no captured frames throws
(modelled as `none`). -/

structure Cal5State where
  frames : List ℚ
  deriving DecidableEq, Repr

structure CalData where
  heightCm : ℚ
  pixelsPerMeter : ℚ
  timestamp : ℚ
  deriving DecidableEq, Repr

def cal5Init : Cal5State := { frames := [] }

/-- `captureFrame(pose, canvasHeight)`: push `|nose.y − ankle.y| · h`.
(The missing-landmark early return is outside the embedded inputs: the
coordinates are given.)  Returns the new state and the progress value. -/
def cal5CaptureFrame (st : Cal5State) (noseY ankleY canvasHeight : ℚ) :
    Cal5State × ℚ :=
  let pixelHeight := |noseY - ankleY| * canvasHeight
  let st1 : Cal5State := { frames := st.frames ++ [pixelHeight] }
  (st1, min 1 (st1.frames.length / 60))

def cal5IsComplete (st : Cal5State) : Bool := 60 ≤ st.frames.length

/-- `finalize(userHeightCm, canvasHeight)` (the injected clock value fills
the `timestamp` field). -/
def cal5Finalize (st : Cal5State) (userHeightCm canvasHeight now : ℚ) :
    Option CalData :=
  if st.frames = [] then none
  else
    let avgPixelHeight := st.frames.sum / st.frames.length
    let effectiveHeightCm := userHeightCm * (1 - 0.12)
    let pixelsPerCm := avgPixelHeight / effectiveHeightCm
    some { heightCm := userHeightCm, pixelsPerMeter := pixelsPerCm * 100, timestamp := now }

/-- The uprightness gate of the capture loop in the height-calibration
variants (`captureFrame` of the VBT `CalibrationSystem`): a frame whose
ankle-to-nose pixel distance is below 30 % of the canvas height is
invalid. -/
def uprightnessFails (distPx canvasHeight : ℚ) : Bool :=
  distPx < canvasHeight * 0.3

/-- The C1 scenario: sixty frames, each measuring 500 px ankle-to-nose on
an 800 px canvas (nose at `y = 0.1`, ankles at `y = 0.725`). -/
def c1State : Cal5State :=
  (List.range 60).foldl (fun s _ => (cal5CaptureFrame s 0.1 0.725 800).1) cal5Init

/-! ## Claim C1 — deterministic calibration scale -/

/-- C1.  With a user height of 70 inches (70 × 2.54 cm) and sixty accepted
frames of 500 px ankle-to-nose distance on an 800 px frame — which passes
the 30 % uprightness gate, since 500 ≥ 0.3 × 800 — calibration completes
and the scale factor is exactly (70 × 2.54 × 0.88) / 500 cm per pixel
(equivalently, `pixelsPerMeter` is its inverse times 100).  Determinism is
immediate: the embedded calibration is a pure function of its inputs, so
identical inputs give the identical scale. -/
theorem c1State_frames : c1State.frames = List.replicate 60 500 := by
  have hstep : ∀ st : Cal5State,
      ((cal5CaptureFrame st 0.1 0.725 800).1).frames = st.frames ++ [500] := by
    intro st
    unfold cal5CaptureFrame
    norm_num
    rw [abs_of_nonneg (by norm_num : (0:ℚ) ≤ 5/8)]
    norm_num
  have h : ∀ (n : ℕ) (s : Cal5State),
      ((List.range n).foldl (fun s _ => (cal5CaptureFrame s 0.1 0.725 800).1) s).frames
        = s.frames ++ List.replicate n 500 := by
    intro n
    induction n with
    | zero => intro s; simp
    | succ n ih =>
      intro s
      rw [List.range_succ, List.foldl_append, List.foldl_cons, List.foldl_nil,
        hstep, ih, List.replicate_succ', ← List.append_assoc]
  show ((List.range 60).foldl (fun s _ => (cal5CaptureFrame s 0.1 0.725 800).1) cal5Init).frames
    = List.replicate 60 500
  rw [h 60 cal5Init]
  rfl

theorem calibration_scale_scenario :
    cal5IsComplete c1State = true ∧
    uprightnessFails 500 800 = false ∧
    cal5Finalize c1State (70 * 2.54) 800 0 =
      some { heightCm := 70 * 2.54,
             pixelsPerMeter := 500 / (70 * 2.54 * 0.88) * 100,
             timestamp := 0 } ∧
    (100 : ℚ) / (500 / (70 * 2.54 * 0.88) * 100) = 70 * 2.54 * 0.88 / 500 := by
  refine ⟨?_, ?_, ?_, by norm_num⟩
  · simp [cal5IsComplete, c1State_frames]
  · simp only [uprightnessFails]
    norm_num
  · unfold cal5Finalize
    rw [c1State_frames]
    norm_num [List.sum_replicate]

/-! ## Calibration system, VBT variant (`CalibrationSystem`, height-based)

The capture loop collects `CALIBRATION_FRAMES = 60` upright frames of
ankle-to-nose pixel distance, rejects non-upright frames (distance under
30 % of the canvas height) without incrementing the counter, takes the
median of the samples, and converts with the user's height minus the
`NOSE_TO_HEAD_OFFSET_CM = 11` nose-to-crown offset.  Landmarks are given
(the missing-landmark early returns of the source are the frames outside
the embedded inputs).  Body segments involve `Math.hypot`, hence live in
`ℝ`. -/

structure LM where
  x : ℚ
  y : ℚ
  deriving DecidableEq, Repr

structure SidePose where
  WRIST : LM
  ELBOW : LM
  SHOULDER : LM
  HIP : LM
  KNEE : LM
  ANKLE : LM
  NOSE : LM
  deriving DecidableEq, Repr

structure Pose8 where
  LEFT : SidePose
  RIGHT : SidePose
  deriving DecidableEq, Repr

inductive CalPhase
  | WAITING_FOR_HEIGHT
  | CAPTURING
  | COMPLETE
  deriving DecidableEq, Repr

/-- Measured body segments (cm, real-valued: `Math.hypot`). -/
structure Seg8 where
  torso : Option ℝ
  thigh : Option ℝ
  shin : Option ℝ
  upperArm : Option ℝ
  forearm : Option ℝ
  ankleToNose : Option ℝ

structure Cal8State where
  phase : CalPhase
  userHeightInches : Option ℚ
  userHeightCm : Option ℚ
  ankleToNoseCm : Option ℚ
  framesCaptured : ℕ
  samples : List ℚ
  pixelToCm : Option ℚ
  segs : Seg8

/-- The constructor / `reset()` state. -/
def cal8Init : Cal8State :=
  { phase := .WAITING_FOR_HEIGHT, userHeightInches := none, userHeightCm := none,
    ankleToNoseCm := none, framesCaptured := 0, samples := [], pixelToCm := none,
    segs := { torso := none, thigh := none, shin := none, upperArm := none,
              forearm := none, ankleToNose := none } }

/-- `setUserHeight(inches)`: inches to cm, subtract the 11 cm nose-to-crown
offset, enter the capture phase; returns the derived pair. -/
def setUserHeight (st : Cal8State) (inches : ℚ) : Cal8State × (ℚ × ℚ) :=
  let heightCm := inches * 2.54
  let ankleToNoseCm := heightCm - 11
  ({ st with userHeightInches := some inches, userHeightCm := some heightCm,
             ankleToNoseCm := some ankleToNoseCm, phase := .CAPTURING },
   (heightCm, ankleToNoseCm))

/-- `distancePixels` helper of `measureBodySegments`: canvas height scales
both axes in the source. -/
noncomputable def distancePixels (a b : LM) (canvasHeight : ℚ) : ℝ :=
  Real.sqrt ((((a.x - b.x) * canvasHeight : ℚ) : ℝ) ^ 2 +
    (((a.y - b.y) * canvasHeight : ℚ) : ℝ) ^ 2)

/-- `avgSegment` helper: left/right average, scaled to cm. -/
noncomputable def avgSegment (lA lB rA rB : LM) (canvasHeight ratio : ℚ) : ℝ :=
  (distancePixels lA lB canvasHeight + distancePixels rA rB canvasHeight) / 2 * (ratio : ℝ)

/-- `measureBodySegments(pose, canvasHeight)` (reads the freshly computed
ratio from the state). -/
noncomputable def measureBodySegments (st : Cal8State) (pose : Pose8)
    (canvasHeight : ℚ) : Seg8 :=
  let ratio := st.pixelToCm.getD 0
  { torso := some (avgSegment pose.LEFT.SHOULDER pose.LEFT.HIP pose.RIGHT.SHOULDER pose.RIGHT.HIP canvasHeight ratio),
    thigh := some (avgSegment pose.LEFT.HIP pose.LEFT.KNEE pose.RIGHT.HIP pose.RIGHT.KNEE canvasHeight ratio),
    shin := some (avgSegment pose.LEFT.KNEE pose.LEFT.ANKLE pose.RIGHT.KNEE pose.RIGHT.ANKLE canvasHeight ratio),
    upperArm := some (avgSegment pose.LEFT.SHOULDER pose.LEFT.ELBOW pose.RIGHT.SHOULDER pose.RIGHT.ELBOW canvasHeight ratio),
    forearm := some (avgSegment pose.LEFT.ELBOW pose.LEFT.WRIST pose.RIGHT.ELBOW pose.RIGHT.WRIST canvasHeight ratio),
    ankleToNose := some ((st.ankleToNoseCm.getD 0 : ℚ) : ℝ) }

/-- Returned capture status. -/
inductive Cal8Res
  | INVALID_POSE
  | CAPTURING (progress : ℚ) (framesRemaining : ℕ)
  | COMPLETE (ratio : ℚ) (segs : Seg8)

/-- `finalizeCalibration(pose, canvasHeight)`: median of the sorted
samples (`sorted[⌊n/2⌋]`), ratio = ankle-to-nose cm over median px, then
measure segments and complete.  (JavaScript `null` arithmetic coerces to
`0` via `getD 0`; neither occurs on the capture path.) -/
noncomputable def finalizeCalibration (st : Cal8State) (pose : Pose8)
    (canvasHeight : ℚ) : Cal8Res × Cal8State :=
  let sorted := st.samples.mergeSort (· ≤ ·)
  let median := sorted.getD (st.samples.length / 2) 0
  let ratio := st.ankleToNoseCm.getD 0 / median
  let st1 := { st with pixelToCm := some ratio }
  let segs := measureBodySegments st1 pose canvasHeight
  (.COMPLETE ratio segs, { st1 with segs := segs, phase := .COMPLETE })

/-- `captureFrame(pose, canvasHeight)`. -/
noncomputable def cal8CaptureFrame (st : Cal8State) (pose : Pose8)
    (canvasHeight : ℚ) : Option Cal8Res × Cal8State :=
  if st.phase ≠ .CAPTURING then (none, st)
  else
    let avgAnkleY := (pose.LEFT.ANKLE.y + pose.RIGHT.ANKLE.y) / 2
    let ankleToNosePixels := (avgAnkleY - pose.LEFT.NOSE.y) * canvasHeight
    if ankleToNosePixels < canvasHeight * 0.3 then (some .INVALID_POSE, st)
    else
      let st1 := { st with samples := st.samples ++ [ankleToNosePixels],
                           framesCaptured := st.framesCaptured + 1 }
      if 60 ≤ st1.framesCaptured then
        let r := finalizeCalibration st1 pose canvasHeight
        (some r.1, r.2)
      else
        (some (.CAPTURING (st1.framesCaptured / 60) (60 - st1.framesCaptured)), st1)

/-! ## Claim C8 — capture-phase uprightness gate -/

/-- C8.  During the capture phase: a frame whose measured ankle-to-nose
pixel distance is below 30 % of the frame height is rejected — the state
(counter, samples, everything) is unchanged and `INVALID_POSE` is
returned instead of progress; an accepted frame appends exactly one
sample and increments the counter by exactly one. -/
theorem capture_uprightness_gate (st : Cal8State) (pose : Pose8)
    (canvasHeight : ℚ) (hph : st.phase = .CAPTURING) :
    (((pose.LEFT.ANKLE.y + pose.RIGHT.ANKLE.y) / 2 - pose.LEFT.NOSE.y) * canvasHeight
        < canvasHeight * 0.3 →
      cal8CaptureFrame st pose canvasHeight = (some .INVALID_POSE, st)) ∧
    (¬ ((pose.LEFT.ANKLE.y + pose.RIGHT.ANKLE.y) / 2 - pose.LEFT.NOSE.y) * canvasHeight
        < canvasHeight * 0.3 →
      ((cal8CaptureFrame st pose canvasHeight).2.framesCaptured = st.framesCaptured + 1 ∧
       (cal8CaptureFrame st pose canvasHeight).2.samples =
        st.samples ++ [((pose.LEFT.ANKLE.y + pose.RIGHT.ANKLE.y) / 2 - pose.LEFT.NOSE.y) * canvasHeight])) := by
  constructor
  · intro hlt
    unfold cal8CaptureFrame
    rw [if_neg (by rw [hph]; exact fun h => h rfl)]
    dsimp only
    rw [if_pos hlt]
  · intro hge
    unfold cal8CaptureFrame
    rw [if_neg (by rw [hph]; exact fun h => h rfl)]
    dsimp only
    rw [if_neg hge]
    split
    · unfold finalizeCalibration
      exact ⟨rfl, rfl⟩
    · exact ⟨rfl, rfl⟩

/-- A concrete capturing state: fresh system after `setUserHeight(70)`. -/
def cal8Capturing : Cal8State := (setUserHeight cal8Init 70).1

/-- A concrete upright pose: nose at `y = 0.1`, ankles at `y = 0.725`
(500 px of 800 px), other joints anywhere. -/
def c8lm : LM := { x := 0.5, y := 0.5 }

def c8side : SidePose :=
  { WRIST := c8lm, ELBOW := c8lm, SHOULDER := c8lm, HIP := c8lm, KNEE := c8lm,
    ANKLE := { x := 0.5, y := 0.725 }, NOSE := { x := 0.5, y := 0.1 } }

def c8pose : Pose8 := { LEFT := c8side, RIGHT := c8side }

/-- Witness for C8 at the concrete capturing state and upright pose. -/
theorem capture_uprightness_gate_witness :
    ((((c8pose.LEFT.ANKLE.y + c8pose.RIGHT.ANKLE.y) / 2 - c8pose.LEFT.NOSE.y) * 800
        < 800 * 0.3 →
      cal8CaptureFrame cal8Capturing c8pose 800 = (some .INVALID_POSE, cal8Capturing)) ∧
    (¬ (((c8pose.LEFT.ANKLE.y + c8pose.RIGHT.ANKLE.y) / 2 - c8pose.LEFT.NOSE.y) * 800
        < 800 * 0.3) →
      ((cal8CaptureFrame cal8Capturing c8pose 800).2.framesCaptured =
          cal8Capturing.framesCaptured + 1 ∧
       (cal8CaptureFrame cal8Capturing c8pose 800).2.samples =
        cal8Capturing.samples ++
          [((c8pose.LEFT.ANKLE.y + c8pose.RIGHT.ANKLE.y) / 2 - c8pose.LEFT.NOSE.y) * 800]))) :=
  capture_uprightness_gate cal8Capturing c8pose 800 rfl

/-! ## Posture angles

Two variants exist in the sources.

* `Vector3D.angleBetween` (Simplified variant) guards zero magnitudes
  (`if (magA === 0 || magB === 0) return 0`) before the clamped arc
  cosine: it is total.
* `VBTStateMachine.calculateElbowAngle` (height-calibration variant)
  divides `dot / (magShoulder * magWrist)` with no guard.  When two
  landmarks coincide one magnitude is zero, the dot product is then also
  zero, and IEEE evaluation gives `0/0 = NaN`; `Math.min`/`Math.max`
  propagate `NaN`, and `Math.acos(NaN)` is `NaN`.  The clamp never runs on
  a real number in that case.  `NaN` is modelled as `none`.
-/

@[ext]
structure P2 where
  x : ℚ
  y : ℚ
  deriving DecidableEq, Repr

structure V3 where
  x : ℚ
  y : ℚ
  z : ℚ
  deriving DecidableEq, Repr

/-- `Vector3D.angleBetween(a, b)` in degrees — total, zero vectors give
`0`. -/
noncomputable def angleBetween (a b : V3) : ℝ :=
  let magA := Real.sqrt ((a.x:ℝ) ^ 2 + (a.y:ℝ) ^ 2 + (a.z:ℝ) ^ 2)
  let magB := Real.sqrt ((b.x:ℝ) ^ 2 + (b.y:ℝ) ^ 2 + (b.z:ℝ) ^ 2)
  if magA = 0 ∨ magB = 0 then 0
  else
    let cosAngle := ((a.x * b.x + a.y * b.y + a.z * b.z : ℚ) : ℝ) / (magA * magB)
    Real.arccos (max (-1) (min 1 cosAngle)) * (180 / Real.pi)

/-- `VBTStateMachine.calculateElbowAngle(shoulder, elbow, wrist)` in
degrees.  `none` is the IEEE `NaN` outcome: whenever `magS * magW = 0`
the dot product is necessarily `0` as well (a zero vector dotted with
anything), so the source computes `acos(0/0) = acos(NaN) = NaN`. -/
noncomputable def calculateElbowAngle (shoulder elbow wrist : P2) : Option ℝ :=
  let tSx := shoulder.x - elbow.x
  let tSy := shoulder.y - elbow.y
  let tWx := wrist.x - elbow.x
  let tWy := wrist.y - elbow.y
  let dot := tSx * tWx + tSy * tWy
  let magS := Real.sqrt ((tSx:ℝ) ^ 2 + (tSy:ℝ) ^ 2)
  let magW := Real.sqrt ((tWx:ℝ) ^ 2 + (tWy:ℝ) ^ 2)
  if magS * magW = 0 then none
  else some (Real.arccos (max (-1) (min 1 ((dot:ℝ) / (magS * magW)))) * (180 / Real.pi))

theorem arccos_deg_mem (c : ℝ) :
    0 ≤ Real.arccos c * (180 / Real.pi) ∧ Real.arccos c * (180 / Real.pi) ≤ 180 := by
  have hpi : 0 < Real.pi := Real.pi_pos
  constructor
  · exact mul_nonneg (Real.arccos_nonneg c) (by positivity)
  · have h1 : Real.arccos c * (180 / Real.pi) ≤ Real.pi * (180 / Real.pi) :=
      mul_le_mul_of_nonneg_right (Real.arccos_le_pi c) (by positivity)
    calc Real.arccos c * (180 / Real.pi) ≤ Real.pi * (180 / Real.pi) := h1
    _ = 180 := by field_simp

/-! ## Claim C9 — totality of the posture-angle computation -/

/-- Counterexample to C9 as stated.  At the degenerate landmark triple
with shoulder and elbow coincident at the origin and the wrist at (1, 0),
`calculateElbowAngle` does not return a real number at all: the source
divides `0 / 0` before the clamp, and `acos(NaN)` is `NaN` (modelled
`none`).  The clamp does not make the computation total on coincident
landmarks. -/
theorem elbow_angle_nan_counterexample :
    calculateElbowAngle { x := 0, y := 0 } { x := 0, y := 0 } { x := 1, y := 0 } = none := by
  unfold calculateElbowAngle
  rw [if_pos]
  norm_num

/-- C9 amended.  The angle computation is total and lands in [0, 180]
degrees wherever the two bone vectors are non-degenerate (neither joint
pair coincides) — there the clamped arc cosine does prevent any domain
error; and the Simplified variant's `angleBetween` is total on every
input, including zero vectors, with values in [0, 180]. -/
theorem elbow_angle_total_amended (shoulder elbow wrist : P2) (a b : V3)
    (hs : shoulder ≠ elbow) (hw : wrist ≠ elbow) :
    (∃ θ : ℝ, calculateElbowAngle shoulder elbow wrist = some θ ∧ 0 ≤ θ ∧ θ ≤ 180) ∧
    (0 ≤ angleBetween a b ∧ angleBetween a b ≤ 180) := by
  constructor
  · have key : ∀ p q : P2, p ≠ q →
        Real.sqrt (((p.x - q.x : ℚ):ℝ) ^ 2 + ((p.y - q.y : ℚ):ℝ) ^ 2) ≠ 0 := by
      intro p q hpq
      rw [Real.sqrt_ne_zero']
      by_contra hc
      push_neg at hc
      have hx : ((p.x - q.x : ℚ):ℝ) = 0 := by
        nlinarith [sq_nonneg ((p.x - q.x : ℚ):ℝ), sq_nonneg ((p.y - q.y : ℚ):ℝ)]
      have hy : ((p.y - q.y : ℚ):ℝ) = 0 := by
        nlinarith [sq_nonneg ((p.x - q.x : ℚ):ℝ), sq_nonneg ((p.y - q.y : ℚ):ℝ)]
      apply hpq
      apply P2.ext
      · exact sub_eq_zero.mp (by exact_mod_cast hx)
      · exact sub_eq_zero.mp (by exact_mod_cast hy)
    have heq : calculateElbowAngle shoulder elbow wrist =
        some (Real.arccos (max (-1) (min 1
          (((shoulder.x - elbow.x) * (wrist.x - elbow.x) + (shoulder.y - elbow.y) * (wrist.y - elbow.y) : ℚ) /
            (Real.sqrt (((shoulder.x - elbow.x : ℚ):ℝ) ^ 2 + ((shoulder.y - elbow.y : ℚ):ℝ) ^ 2) *
             Real.sqrt (((wrist.x - elbow.x : ℚ):ℝ) ^ 2 + ((wrist.y - elbow.y : ℚ):ℝ) ^ 2))))) *
          (180 / Real.pi)) := by
      unfold calculateElbowAngle
      rw [if_neg (mul_ne_zero (key shoulder elbow hs) (key wrist elbow hw))]
    exact ⟨_, heq, (arccos_deg_mem _).1, (arccos_deg_mem _).2⟩
  · unfold angleBetween
    dsimp only
    constructor <;> split
    · norm_num
    · exact (arccos_deg_mem _).1
    · norm_num
    · exact (arccos_deg_mem _).2

/-- Witness for the amended C9 at a non-degenerate concrete triple. -/
theorem elbow_angle_total_amended_witness :
    (∃ θ : ℝ, calculateElbowAngle { x := 0, y := 0 } { x := 1, y := 0 } { x := 1, y := 1 }
        = some θ ∧ 0 ≤ θ ∧ θ ≤ 180) ∧
    (0 ≤ angleBetween { x := 0, y := 0, z := 0 } { x := 0, y := 0, z := 0 } ∧
      angleBetween { x := 0, y := 0, z := 0 } { x := 0, y := 0, z := 0 } ≤ 180) :=
  elbow_angle_total_amended { x := 0, y := 0 } { x := 1, y := 0 } { x := 1, y := 1 }
    { x := 0, y := 0, z := 0 } { x := 0, y := 0, z := 0 } (by decide) (by decide)

/-! ## Movement state machine (Simplified variant, `MovementStateMachine`)

The per-frame pipeline: one-euro smoothing of every supplied landmark,
side lock on a sustained(-enough) wrist height gap, elbow-flexion and
position predicates, wrist speed with a plausible frame-interval band,
exponential speed smoothing, and the IDLE/MOVING/RETURNING phase logic.

Landmarks are assumed present on every embedded frame (the source skips a
frame only when a wrist is missing; a missing `z` is already defaulted to
`0` by `convertPose`).  Real-number state (`ℝ`) throughout: the adaptive
filter coefficient involves `π`, distances involve square roots. -/

structure Pt3 where
  x : ℝ
  y : ℝ
  z : ℝ

inductive Side
  | LEFT
  | RIGHT
  deriving DecidableEq, Repr

inductive Joint
  | WRIST
  | SHOULDER
  | HIP
  | ELBOW
  | KNEE
  | ANKLE
  | NOSE
  deriving DecidableEq, Repr

/-- A frame of raw landmarks (all joints present on both sides). -/
def RawPose : Type := Side → Joint → Pt3

/-! ### One-euro filter (`OneEuroFilter`, defaults `minCutoff = 0.05`,
`beta = 0.25`)

`euroAlpha c f` is the source's `alpha(cutoff, freq)` with
`tau = 1/(2π·cutoff)`; `euroEdx`/`euroCut`/`euroNext` name the values the
source's `filter` computes with `freq = 1/dt` (`dt` in seconds): the
smoothed derivative, the adaptive cutoff `minCutoff + beta·|edx|` and the
new filtered value `x + alpha(cutoff, freq)·(value − x)`. -/

noncomputable def euroAlpha (cutoff freq : ℝ) : ℝ :=
  1 / (1 + 1 / (2 * Real.pi * cutoff) * freq)

noncomputable def euroEdx (x dx v dt : ℝ) : ℝ :=
  dx + euroAlpha 1 (1 / dt) * ((v - x) * (1 / dt) - dx)

noncomputable def euroCut (x dx v dt : ℝ) : ℝ :=
  0.05 + 0.25 * |euroEdx x dx v dt|

noncomputable def euroNext (x dx v dt : ℝ) : ℝ :=
  x + euroAlpha (euroCut x dx v dt) (1 / dt) * (v - x)

/-- Internal filter state once the first sample has passed through
(`x`, `dx`, `lastTime`; `dx` starts at `0`). -/
structure EuroCore where
  x : ℝ
  dx : ℝ
  lastTime : ℝ

/-- `filter(value, timestamp)`: pass the first sample through; return the
held value unchanged on a non-positive time step; otherwise the one-euro
update. -/
noncomputable def euroFilter (f : Option EuroCore) (value t : ℝ) :
    ℝ × Option EuroCore :=
  match f with
  | none => (value, some { x := value, dx := 0, lastTime := t })
  | some c =>
    let dt := (t - c.lastTime) / 1000
    if dt ≤ 0 then (c.x, some c)
    else (euroNext c.x c.dx value dt,
      some { x := euroNext c.x c.dx value dt, dx := euroEdx c.x c.dx value dt, lastTime := t })

/-- The three per-axis filters of one `filters[side_joint]` entry. -/
structure JointFilter where
  fx : Option EuroCore
  fy : Option EuroCore
  fz : Option EuroCore

/-- `this.filters`: lazily created entries start as fresh filters, which
behave identically to absent ones, so the bank is total. -/
def FilterBank : Type := Side → Joint → JointFilter

def freshJointFilter : JointFilter := { fx := none, fy := none, fz := none }

def freshBank : FilterBank := fun _ _ => freshJointFilter

noncomputable def smoothJoint (jf : JointFilter) (p : Pt3) (t : ℝ) :
    Pt3 × JointFilter :=
  let rx := euroFilter jf.fx p.x t
  let ry := euroFilter jf.fy p.y t
  let rz := euroFilter jf.fz p.z t
  ({ x := rx.1, y := ry.1, z := rz.1 }, { fx := rx.2, fy := ry.2, fz := rz.2 })

/-- `smoothPose(rawPose, timestamp)`: every supplied joint runs through
its per-axis filters; returns the smoothed pose and the updated bank. -/
noncomputable def smoothPose (bank : FilterBank) (raw : RawPose) (t : ℝ) :
    (Side → Joint → Pt3) × FilterBank :=
  (fun s j => (smoothJoint (bank s j) (raw s j) t).1,
   fun s j => (smoothJoint (bank s j) (raw s j) t).2)

/-! ### Calibration handle and speed -/

/-- The slice of the Simplified `CalibrationSystem` the machine reads. -/
structure Calib7 where
  pixelToCm : Option ℝ

/-- `getPixelsPerMeter()`: `pixelToCm ? 100 / pixelToCm : null`. -/
noncomputable def getPixelsPerMeter (c : Calib7) : Option ℝ :=
  match c.pixelToCm with
  | none => none
  | some r => if r = 0 then none else some (100 / r)

inductive Phase
  | IDLE
  | MOVING
  | RETURNING
  deriving DecidableEq, Repr

inductive StartPos
  | RACK
  | BELOW_HIP
  | OVERHEAD
  deriving DecidableEq, Repr

inductive MSMEvent
  | sideLocked (s : Side)
  | rep (m : Movement) (velocity : ℝ)

structure MSMState where
  side : Option Side
  phase : Phase
  startedFrom : Option StartPos
  reachedRack : Bool
  reachedOverhead : Bool
  reachedLockout : Bool
  wentBelowHip : Bool
  elbowStayedExtended : Bool
  rackFrames : ℕ
  lockoutFrames : ℕ
  peakSpeed : ℝ
  lastWrist : Option (ℝ × ℝ)
  lastTime : Option ℝ
  smoothedSpeed : ℝ
  resetProgress : ℝ
  pendingMove : Option Movement

/-- `reset()` state (`lastWrist`/`lastTime` null, `pendingMove` unset). -/
def msmReset : MSMState :=
  { side := none, phase := .IDLE, startedFrom := none, reachedRack := false,
    reachedOverhead := false, reachedLockout := false, wentBelowHip := false,
    elbowStayedExtended := true, rackFrames := 0, lockoutFrames := 0,
    peakSpeed := 0, lastWrist := none, lastTime := none, smoothedSpeed := 0,
    resetProgress := 0, pendingMove := none }

/-- The whole machine object: canvas dimensions, calibration handle,
filter bank, mutable state. -/
structure MSM where
  canvasHeight : ℝ
  canvasWidth : ℝ
  calibration : Calib7
  filters : FilterBank
  state : MSMState

/-- `calculateElbowFlexion(shoulder, elbow, wrist)`: 180° minus the
clamped geometric angle (0 = straight, larger = bent); zero-magnitude bone
vectors return 0. -/
noncomputable def calculateElbowFlexion (cw ch : ℝ) (shoulder elbow wrist : Pt3) : ℝ :=
  let tSx := (shoulder.x - elbow.x) * cw
  let tSy := (shoulder.y - elbow.y) * ch
  let tWx := (wrist.x - elbow.x) * cw
  let tWy := (wrist.y - elbow.y) * ch
  let dot := tSx * tWx + tSy * tWy
  let magS := Real.sqrt (tSx ^ 2 + tSy ^ 2)
  let magW := Real.sqrt (tWx ^ 2 + tWy ^ 2)
  if magS = 0 ∨ magW = 0 then 0
  else 180 - Real.arccos (max (-1) (min 1 (dot / (magS * magW)))) * (180 / Real.pi)

/-- `calculateSpeed(wrist, timestamp)`: with no calibration, no previous
sample or a falsy (`0`) previous timestamp, anchor and return 0; with an
elapsed time outside the plausible band `[0.016 s, 0.1 s]` (duplicate or
dropped frames), anchor and return 0 — withholding the sample; otherwise
the pixel distance over elapsed time, metric via pixels-per-meter, clamped
at 8 m/s.  Every call re-anchors `lastWrist`/`lastTime`.
(`getPixelsPerMeter` never returns `some 0`, so the `!ppm` falsy test is
exactly the `none` case.) -/
noncomputable def calculateSpeed (cw ch : ℝ) (calib : Calib7) (st : MSMState)
    (wrist : Pt3) (t : ℝ) : ℝ × MSMState :=
  let anchored := { st with lastWrist := some (wrist.x, wrist.y), lastTime := some t }
  match getPixelsPerMeter calib, st.lastWrist, st.lastTime with
  | some ppm, some lw, some lt =>
    if lt = 0 then (0, anchored)
    else
      let dt := (t - lt) / 1000
      if dt < 0.016 ∨ dt > 0.1 then (0, anchored)
      else
        let dx := (wrist.x - lw.1) * cw
        let dy := (wrist.y - lw.2) * ch
        (min (Real.sqrt (dx ^ 2 + dy ^ 2) / ppm / dt) 8, anchored)
  | _, _, _ => (0, anchored)

/-- `resetFlags()`. -/
def resetFlags (st : MSMState) : MSMState :=
  { st with reachedRack := false, reachedOverhead := false, reachedLockout := false, wentBelowHip := false, elbowStayedExtended := true, rackFrames := 0, lockoutFrames := 0 }

/-- `resetForNext(inRack)`: note the source order — `rackFrames` is
assigned and then zeroed again by the `resetFlags()` call, so it always
ends `0`; `reachedRack` is re-set afterwards when `inRack`. -/
def resetForNext (st : MSMState) (inRack : Bool) : MSMState :=
  let s1 := { st with phase := Phase.IDLE, startedFrom := some (if inRack then StartPos.RACK else StartPos.BELOW_HIP), rackFrames := (if inRack then 20 else 0) }
  let s2 := resetFlags s1
  let s3 := if inRack then { s2 with reachedRack := true } else s2
  { s3 with peakSpeed := 0, pendingMove := none }

/-- Entering MOVING from IDLE: `phase = 'MOVING'; peakSpeed = 0;
resetFlags()`. -/
def moveStart (st : MSMState) : MSMState :=
  resetFlags { st with phase := Phase.MOVING, peakSpeed := 0 }

/-- The IDLE block: starting-posture hold counters and the departure
checks (which read the just-updated `startedFrom`). -/
def idleStep (st : MSMState) (inRack inLockout wristBelowHip : Prop)
    [Decidable inRack] [Decidable inLockout] [Decidable wristBelowHip] : MSMState :=
  let st2 :=
    if inLockout then
      let sa := { st with lockoutFrames := st.lockoutFrames + 1 }
      if sa.lockoutFrames > 3 then { sa with startedFrom := some StartPos.OVERHEAD } else sa
    else if inRack then
      let sa := { st with rackFrames := st.rackFrames + 1, lockoutFrames := 0 }
      if sa.rackFrames > 20 then { sa with startedFrom := some StartPos.RACK } else sa
    else if wristBelowHip then
      { st with rackFrames := 0, lockoutFrames := 0, startedFrom := some StartPos.BELOW_HIP }
    else st
  if st2.startedFrom = some StartPos.RACK ∧ ¬ inRack then moveStart st2
  else if st2.startedFrom = some StartPos.BELOW_HIP ∧ ¬ wristBelowHip then moveStart st2
  else if st2.startedFrom = some StartPos.OVERHEAD ∧ ¬ inLockout then moveStart st2
  else st2

/-- The sticky flag updates at the head of the MOVING block, in source
order: peak, elbow fold, below-hip, overhead, lockout, rack. -/
noncomputable def movingFlags (st : MSMState)
    (flexHigh inRack inLockout wristBelowHip wristOverhead : Prop)
    [Decidable flexHigh] [Decidable inRack] [Decidable inLockout]
    [Decidable wristBelowHip] [Decidable wristOverhead] : MSMState :=
  let s0 := { st with peakSpeed := max st.peakSpeed st.smoothedSpeed }
  let s1 := if flexHigh then { s0 with elbowStayedExtended := false } else s0
  let s2 := if wristBelowHip then { s1 with wentBelowHip := true } else s1
  let s3 := if wristOverhead then { s2 with reachedOverhead := true } else s2
  let s4 := if inLockout then { s3 with reachedLockout := true, lockoutFrames := s3.lockoutFrames + 1 }
            else { s3 with lockoutFrames := 0 }
  if inRack then { s4 with reachedRack := true, rackFrames := s4.rackFrames + 1 }
  else { s4 with rackFrames := 0 }

/-- The MOVING block: sticky flag updates in source order, then the
decision chain (PRESS pending, SNATCH, CLEAN, the empty "started going
up" guard, SWING). -/
noncomputable def movingStep (st : MSMState) (flexHigh inRack inLockout wristBelowHip wristOverhead aboveNavel : Prop)
    [Decidable flexHigh] [Decidable inRack] [Decidable inLockout]
    [Decidable wristBelowHip] [Decidable wristOverhead] [Decidable aboveNavel] :
    Option MSMEvent × MSMState :=
  let s5 := movingFlags st flexHigh inRack inLockout wristBelowHip wristOverhead
  if s5.startedFrom = some StartPos.RACK ∧ s5.reachedLockout ∧ s5.lockoutFrames > 0 ∧ ¬ s5.wentBelowHip then
    (none, { s5 with phase := Phase.RETURNING, pendingMove := some Movement.PRESS })
  else if s5.wentBelowHip ∧ s5.reachedLockout ∧ wristBelowHip then
    (some (.rep .SNATCH s5.peakSpeed), resetForNext s5 false)
  else if s5.startedFrom = some StartPos.BELOW_HIP ∧ s5.elbowStayedExtended = false ∧ s5.reachedRack ∧ s5.rackFrames > 20 then
    (some (.rep .CLEAN s5.peakSpeed), resetForNext s5 true)
  else if s5.startedFrom = some StartPos.BELOW_HIP ∧ s5.reachedOverhead = false ∧ aboveNavel ∧ s5.wentBelowHip = false then
    (none, s5)
  else if s5.startedFrom = some StartPos.BELOW_HIP ∧ s5.elbowStayedExtended ∧ wristBelowHip ∧ s5.peakSpeed > 0.5 then
    (some (.rep .SWING s5.peakSpeed), resetForNext s5 false)
  else (none, s5)

/-- The RETURNING block: rack hold, PRESS completion. -/
noncomputable def returningStep (st : MSMState) (inRack : Prop) [Decidable inRack] :
    Option MSMEvent × MSMState :=
  let s0 := { st with peakSpeed := max st.peakSpeed st.smoothedSpeed }
  let s1 := if inRack then { s0 with rackFrames := s0.rackFrames + 1 }
            else { s0 with rackFrames := 0 }
  if s1.pendingMove = some Movement.PRESS ∧ s1.rackFrames > 20 then
    (some (.rep .PRESS s1.peakSpeed), resetForNext s1 true)
  else (none, s1)

/-- Dispatch on the phase. -/
noncomputable def phaseStep (st : MSMState)
    (flexHigh inRack inLockout wristBelowHip wristOverhead aboveNavel : Prop)
    [Decidable flexHigh] [Decidable inRack] [Decidable inLockout]
    [Decidable wristBelowHip] [Decidable wristOverhead] [Decidable aboveNavel] :
    Option MSMEvent × MSMState :=
  match st.phase with
  | .IDLE => (none, idleStep st inRack inLockout wristBelowHip)
  | .MOVING => movingStep st flexHigh inRack inLockout wristBelowHip wristOverhead aboveNavel
  | .RETURNING => returningStep st inRack

/-- `update(rawPose, timestamp)`: smooth, side-lock if needed, compute
position predicates and flexion of the locked side, speed and smoothed
speed, then the phase logic. -/
noncomputable def update (m : MSM) (raw : RawPose) (t : ℝ) : Option MSMEvent × MSM :=
  let sp := smoothPose m.filters raw t
  let pose := sp.1
  let bank := sp.2
  match m.state.side with
  | none =>
    if |(pose Side.LEFT Joint.WRIST).y - (pose Side.RIGHT Joint.WRIST).y| > 0.1 then
      let s : Side := if (pose Side.LEFT Joint.WRIST).y < (pose Side.RIGHT Joint.WRIST).y
        then Side.LEFT else Side.RIGHT
      (some (.sideLocked s), { m with filters := bank, state := { m.state with side := some s } })
    else (none, { m with filters := bank })
  | some s =>
    let wrist := pose s Joint.WRIST
    let elbow := pose s Joint.ELBOW
    let shoulder := pose s Joint.SHOULDER
    let hip := pose s Joint.HIP
    let nose := pose s Joint.NOSE
    let flexion := calculateElbowFlexion m.canvasWidth m.canvasHeight shoulder elbow wrist
    let sr := calculateSpeed m.canvasWidth m.canvasHeight m.calibration m.state wrist t
    let st1 := { sr.2 with smoothedSpeed := 0.15 * sr.1 + 0.85 * sr.2.smoothedSpeed }
    let pr := phaseStep st1 (flexion > 130)
      (flexion > 130 ∧ |wrist.y - shoulder.y| < 0.08)
      (flexion < 40 ∧ wrist.y < nose.y - 0.1)
      (wrist.y > hip.y)
      (wrist.y < nose.y - 0.1)
      (wrist.y < hip.y - 0.1)
    (pr.1, { m with filters := bank, state := pr.2 })

/-- A frame sequence through the machine, collecting the per-frame
results. -/
noncomputable def runMSM (m : MSM) (fs : List (RawPose × ℝ)) :
    List (Option MSMEvent) × MSM :=
  fs.foldl (fun acc f => ((acc.1 ++ [(update acc.2 f.1 f.2).1]), (update acc.2 f.1 f.2).2)) ([], m)

/-! ### Field-preservation lemmas for the phase logic -/

theorem resetForNext_smoothedSpeed (st : MSMState) (b : Bool) :
    (resetForNext st b).smoothedSpeed = st.smoothedSpeed := by
  unfold resetForNext resetFlags
  cases b <;> rfl

theorem movingFlags_smoothedSpeed (st : MSMState)
    (flexHigh inRack inLockout wristBelowHip wristOverhead : Prop)
    [Decidable flexHigh] [Decidable inRack] [Decidable inLockout]
    [Decidable wristBelowHip] [Decidable wristOverhead] :
    (movingFlags st flexHigh inRack inLockout wristBelowHip wristOverhead).smoothedSpeed
      = st.smoothedSpeed := by
  unfold movingFlags
  dsimp only
  split_ifs <;> rfl

theorem movingFlags_startedFrom (st : MSMState)
    (flexHigh inRack inLockout wristBelowHip wristOverhead : Prop)
    [Decidable flexHigh] [Decidable inRack] [Decidable inLockout]
    [Decidable wristBelowHip] [Decidable wristOverhead] :
    (movingFlags st flexHigh inRack inLockout wristBelowHip wristOverhead).startedFrom
      = st.startedFrom := by
  unfold movingFlags
  dsimp only
  split_ifs <;> rfl

theorem movingFlags_peakSpeed (st : MSMState)
    (flexHigh inRack inLockout wristBelowHip wristOverhead : Prop)
    [Decidable flexHigh] [Decidable inRack] [Decidable inLockout]
    [Decidable wristBelowHip] [Decidable wristOverhead] :
    (movingFlags st flexHigh inRack inLockout wristBelowHip wristOverhead).peakSpeed
      = max st.peakSpeed st.smoothedSpeed := by
  unfold movingFlags
  dsimp only
  split_ifs <;> rfl

theorem movingFlags_elbow_true (st : MSMState)
    (flexHigh inRack inLockout wristBelowHip wristOverhead : Prop)
    [Decidable flexHigh] [Decidable inRack] [Decidable inLockout]
    [Decidable wristBelowHip] [Decidable wristOverhead]
    (h : (movingFlags st flexHigh inRack inLockout wristBelowHip wristOverhead).elbowStayedExtended = true) :
    st.elbowStayedExtended = true := by
  unfold movingFlags at h
  dsimp only at h
  split_ifs at h <;> first | exact h | cases h

theorem idleStep_smoothedSpeed (st : MSMState) (inRack inLockout wristBelowHip : Prop)
    [Decidable inRack] [Decidable inLockout] [Decidable wristBelowHip] :
    (idleStep st inRack inLockout wristBelowHip).smoothedSpeed = st.smoothedSpeed := by
  unfold idleStep moveStart resetFlags
  dsimp only
  split_ifs <;> rfl

theorem movingStep_smoothedSpeed (st : MSMState)
    (flexHigh inRack inLockout wristBelowHip wristOverhead aboveNavel : Prop)
    [Decidable flexHigh] [Decidable inRack] [Decidable inLockout]
    [Decidable wristBelowHip] [Decidable wristOverhead] [Decidable aboveNavel] :
    (movingStep st flexHigh inRack inLockout wristBelowHip wristOverhead aboveNavel).2.smoothedSpeed
      = st.smoothedSpeed := by
  unfold movingStep
  dsimp only
  split_ifs <;>
    simp only [resetForNext_smoothedSpeed, movingFlags_smoothedSpeed] <;> rfl

theorem returningStep_smoothedSpeed (st : MSMState) (inRack : Prop) [Decidable inRack] :
    (returningStep st inRack).2.smoothedSpeed = st.smoothedSpeed := by
  unfold returningStep
  dsimp only
  split_ifs <;> first | rw [resetForNext_smoothedSpeed] | rfl

theorem phaseStep_smoothedSpeed (st : MSMState)
    (flexHigh inRack inLockout wristBelowHip wristOverhead aboveNavel : Prop)
    [Decidable flexHigh] [Decidable inRack] [Decidable inLockout]
    [Decidable wristBelowHip] [Decidable wristOverhead] [Decidable aboveNavel] :
    (phaseStep st flexHigh inRack inLockout wristBelowHip wristOverhead aboveNavel).2.smoothedSpeed
      = st.smoothedSpeed := by
  unfold phaseStep
  rcases h : st.phase <;> dsimp only
  · exact idleStep_smoothedSpeed st inRack inLockout wristBelowHip
  · exact movingStep_smoothedSpeed st flexHigh inRack inLockout wristBelowHip wristOverhead aboveNavel
  · exact returningStep_smoothedSpeed st inRack

/-- The rejection path of `calculateSpeed`: a truthy calibration and
previous sample, but an elapsed time outside the plausible band. -/
theorem calculateSpeed_reject (cw ch : ℝ) (calib : Calib7) (st : MSMState)
    (wrist : Pt3) (t : ℝ) (ppm : ℝ) (lw : ℝ × ℝ) (τ : ℝ)
    (hppm : getPixelsPerMeter calib = some ppm)
    (hlw : st.lastWrist = some lw)
    (hlt : st.lastTime = some τ) (hτ : τ ≠ 0)
    (hband : (t - τ) / 1000 < 0.016 ∨ (t - τ) / 1000 > 0.1) :
    calculateSpeed cw ch calib st wrist t =
      (0, { st with lastWrist := some (wrist.x, wrist.y), lastTime := some t }) := by
  unfold calculateSpeed
  rw [hppm, hlw, hlt]
  dsimp only
  rw [if_neg hτ, if_pos hband]

/-- The first-sample / uncalibrated path of `calculateSpeed`. -/
theorem calculateSpeed_uninit (cw ch : ℝ) (calib : Calib7) (st : MSMState)
    (wrist : Pt3) (t : ℝ)
    (h : getPixelsPerMeter calib = none ∨ st.lastWrist = none ∨ st.lastTime = none) :
    calculateSpeed cw ch calib st wrist t =
      (0, { st with lastWrist := some (wrist.x, wrist.y), lastTime := some t }) := by
  unfold calculateSpeed
  rcases h1 : getPixelsPerMeter calib with _ | p <;>
    rcases h2 : st.lastWrist with _ | w <;>
      rcases h3 : st.lastTime with _ | u <;>
        first
        | rfl
        | (rcases h with h | h | h <;> simp_all)

/-! ## Claim C2 — out-of-band frame intervals and the smoothed velocity -/

/-- C2 amended.  On a frame whose elapsed time since the previous velocity
sample falls outside the plausible band [0.016 s, 0.1 s], the raw sample
is withheld (`calculateSpeed` contributes `0` and re-anchors), but the
reported smoothed velocity is not retained unchanged: it becomes
`0.85 ×` its previous value — decaying toward zero, in particular never
increasing (no spike) — and the frame's phase logic still runs on the
same posture predicates (the phase blocks never write the smoothed
velocity; only the smoothing line does). -/
theorem velocity_band_rejection (m : MSM) (raw : RawPose) (t : ℝ) (s : Side)
    (ppm τ : ℝ) (lw : ℝ × ℝ)
    (hside : m.state.side = some s)
    (hppm : getPixelsPerMeter m.calibration = some ppm)
    (hlw : m.state.lastWrist = some lw)
    (hlt : m.state.lastTime = some τ) (hτ : τ ≠ 0)
    (hband : (t - τ) / 1000 < 0.016 ∨ (t - τ) / 1000 > 0.1) :
    (update m raw t).2.state.smoothedSpeed = 0.85 * m.state.smoothedSpeed ∧
    (0 ≤ m.state.smoothedSpeed →
      (update m raw t).2.state.smoothedSpeed ≤ m.state.smoothedSpeed) ∧
    (calculateSpeed m.canvasWidth m.canvasHeight m.calibration m.state
        ((smoothPose m.filters raw t).1 s Joint.WRIST) t).1 = 0 := by
  have hs := calculateSpeed_reject m.canvasWidth m.canvasHeight m.calibration m.state
    ((smoothPose m.filters raw t).1 s Joint.WRIST) t ppm lw τ hppm hlw hlt hτ hband
  have hmain : (update m raw t).2.state.smoothedSpeed = 0.85 * m.state.smoothedSpeed := by
    unfold update
    rw [hside]
    dsimp only
    rw [hs]
    dsimp only
    rw [phaseStep_smoothedSpeed]
    dsimp only
    ring
  refine ⟨hmain, ?_, by rw [hs]⟩
  intro hnn
  rw [hmain]
  nlinarith

/-- A synthetic mid-session machine state used to instantiate the C2
amended theorem: side locked, calibrated, anchored at timestamp 1 ms. -/
noncomputable def c2Machine : MSM :=
  { canvasHeight := 800, canvasWidth := 800, calibration := { pixelToCm := some 1 },
    filters := freshBank,
    state := { msmReset with side := some Side.RIGHT, lastWrist := some (0.5, 0.5), lastTime := some 1 } }

def c2Raw : RawPose := fun _ _ => { x := 0.5, y := 0.5, z := 0 }

/-- Witness for the amended C2: a frame 2 s after the anchor (elapsed time
2 s > 0.1 s, dropped frames). -/
theorem velocity_band_rejection_witness :
    (update c2Machine c2Raw 2001).2.state.smoothedSpeed
        = 0.85 * c2Machine.state.smoothedSpeed ∧
    (0 ≤ c2Machine.state.smoothedSpeed →
      (update c2Machine c2Raw 2001).2.state.smoothedSpeed ≤ c2Machine.state.smoothedSpeed) ∧
    (calculateSpeed c2Machine.canvasWidth c2Machine.canvasHeight c2Machine.calibration
        c2Machine.state ((smoothPose c2Machine.filters c2Raw 2001).1 Side.RIGHT Joint.WRIST) 2001).1 = 0 :=
  velocity_band_rejection c2Machine c2Raw 2001 Side.RIGHT 100 1 (0.5, 0.5)
    rfl
    (by unfold getPixelsPerMeter c2Machine; norm_num)
    rfl rfl (by norm_num)
    (Or.inr (by norm_num))

theorem calculateSpeed_anchors (cw ch : ℝ) (calib : Calib7) (st : MSMState)
    (w : Pt3) (t : ℝ) :
    (calculateSpeed cw ch calib st w t).2 =
      { st with lastWrist := some (w.x, w.y), lastTime := some t } := by
  unfold calculateSpeed
  rcases getPixelsPerMeter calib <;> rcases st.lastWrist <;> rcases st.lastTime <;>
    dsimp only <;> split_ifs <;> rfl

/-- Inversion of the MOVING decision chain at a SWING emission: the only
branch that emits SWING is the last one, whose guards are: started below
hip, elbow never folded (including this frame), wrist below hip now, and
the rep's running peak above 0.5 m/s.  Reaching overhead mid-rep is not
among the guards. -/
theorem movingStep_swing (st : MSMState)
    (flexHigh inRack inLockout wristBelowHip wristOverhead aboveNavel : Prop)
    [Decidable flexHigh] [Decidable inRack] [Decidable inLockout]
    [Decidable wristBelowHip] [Decidable wristOverhead] [Decidable aboveNavel]
    (v : ℝ)
    (h : (movingStep st flexHigh inRack inLockout wristBelowHip wristOverhead aboveNavel).1
      = some (.rep .SWING v)) :
    st.startedFrom = some StartPos.BELOW_HIP ∧
    st.elbowStayedExtended = true ∧
    wristBelowHip ∧
    v = max st.peakSpeed st.smoothedSpeed ∧
    v > 0.5 := by
  unfold movingStep at h
  dsimp only at h
  split_ifs at h with h1 h2 h3 h4 h5 <;> simp at h
  obtain ⟨hsf, helb, hbh, hpk⟩ := h5
  rw [movingFlags_startedFrom] at hsf
  rw [movingFlags_peakSpeed] at hpk
  refine ⟨hsf, movingFlags_elbow_true st _ _ _ _ _ helb, hbh, ?_, ?_⟩
  · rw [← h, movingFlags_peakSpeed]
  · rw [← h, movingFlags_peakSpeed]
    exact hpk

/-! ## Claim C3 — what a SWING emission actually requires -/

/-- C3 amended.  A SWING rep event is emitted only when: a side is locked,
the machine is MOVING, the rep started below the hip, the elbow never
folded past 130° flexion during the rep (including the emission frame),
the smoothed wrist is below the hip at emission time, and the rep's
running peak smoothed speed exceeds 0.5 m/s.  Never-overhead is *not*
required: a rep that reached overhead without lockout can still emit
SWING (the counterexample trace), and no swing-height flag is consulted. -/
theorem swing_emission_guards (m : MSM) (raw : RawPose) (t : ℝ) (v : ℝ)
    (h : (update m raw t).1 = some (.rep .SWING v)) :
    ∃ s, m.state.side = some s ∧
      m.state.phase = Phase.MOVING ∧
      m.state.startedFrom = some StartPos.BELOW_HIP ∧
      m.state.elbowStayedExtended = true ∧
      ((smoothPose m.filters raw t).1 s Joint.WRIST).y
        > ((smoothPose m.filters raw t).1 s Joint.HIP).y ∧
      v > 0.5 := by
  unfold update at h
  rcases hside : m.state.side with _ | s <;> rw [hside] at h <;> dsimp only at h
  · split_ifs at h <;> simp at h
  · refine ⟨s, rfl, ?_⟩
    rw [calculateSpeed_anchors] at h
    unfold phaseStep at h
    rcases hphase : m.state.phase with _ | _ | _
    · rw [show ({ m.state with
          lastWrist := some (((smoothPose m.filters raw t).1 s Joint.WRIST).x, ((smoothPose m.filters raw t).1 s Joint.WRIST).y),
          lastTime := some t, smoothedSpeed := 0.15 * (calculateSpeed m.canvasWidth m.canvasHeight m.calibration m.state ((smoothPose m.filters raw t).1 s Joint.WRIST) t).1 + 0.85 * m.state.smoothedSpeed } : MSMState).phase = m.state.phase from rfl, hphase] at h
      simp at h
    · rw [show ({ m.state with
          lastWrist := some (((smoothPose m.filters raw t).1 s Joint.WRIST).x, ((smoothPose m.filters raw t).1 s Joint.WRIST).y),
          lastTime := some t, smoothedSpeed := 0.15 * (calculateSpeed m.canvasWidth m.canvasHeight m.calibration m.state ((smoothPose m.filters raw t).1 s Joint.WRIST) t).1 + 0.85 * m.state.smoothedSpeed } : MSMState).phase = m.state.phase from rfl, hphase] at h
      dsimp only at h
      have hws := movingStep_swing _ _ _ _ _ _ _ v h
      exact ⟨rfl, hws.1, hws.2.1, hws.2.2.1, hws.2.2.2.2⟩
    · rw [show ({ m.state with
          lastWrist := some (((smoothPose m.filters raw t).1 s Joint.WRIST).x, ((smoothPose m.filters raw t).1 s Joint.WRIST).y),
          lastTime := some t, smoothedSpeed := 0.15 * (calculateSpeed m.canvasWidth m.canvasHeight m.calibration m.state ((smoothPose m.filters raw t).1 s Joint.WRIST) t).1 + 0.85 * m.state.smoothedSpeed } : MSMState).phase = m.state.phase from rfl, hphase] at h
      unfold returningStep at h
      dsimp only at h
      split_ifs at h <;> simp at h

/-! ### Quantitative bounds on the one-euro filter

`euroAlpha c f = 2πc / (2πc + f)`: close to `1` for tiny frequencies
(huge time steps — the filter then essentially passes the raw value
through), computed exactly below for the one fast step of the
counterexample trace. -/

theorem euroAlpha_form (c f : ℝ) (hc : 0 < c) (hf : 0 < f) :
    euroAlpha c f = (2 * Real.pi * c) / (2 * Real.pi * c + f) := by
  have hpi : 0 < Real.pi := Real.pi_pos
  unfold euroAlpha
  rw [div_eq_div_iff (by positivity) (by positivity)]
  field_simp

theorem euroAlpha_lt_one (c f : ℝ) (hc : 0 < c) (hf : 0 < f) :
    euroAlpha c f < 1 := by
  have hpi : 0 < Real.pi := Real.pi_pos
  rw [euroAlpha_form c f hc hf, div_lt_one (by positivity)]
  linarith

theorem euroAlpha_pos (c f : ℝ) (hc : 0 < c) (hf : 0 < f) :
    0 < euroAlpha c f := by
  have hpi : 0 < Real.pi := Real.pi_pos
  rw [euroAlpha_form c f hc hf]
  positivity

/-- `1 − alpha ≤ f / (2πc)`: the pass-through defect of one filter step. -/
theorem euroAlpha_defect (c f : ℝ) (hc : 0 < c) (hf : 0 < f) :
    1 - euroAlpha c f ≤ f / (2 * Real.pi * c) := by
  have hpi : 0 < Real.pi := Real.pi_pos
  rw [euroAlpha_form c f hc hf]
  have hden : (0:ℝ) < 2 * Real.pi * c + f := by positivity
  have h1 : 1 - 2 * Real.pi * c / (2 * Real.pi * c + f) = f / (2 * Real.pi * c + f) := by
    field_simp
  rw [h1]
  gcongr
  linarith

/-- One slow filter step (time step at least `10^8` seconds): the output
lands within `10⁻⁷` of the raw value and the derivative state stays within
`10⁻⁷`. -/
theorem euro_slow (x dx v dt : ℝ) (hdt : 10 ^ 8 ≤ dt)
    (hv : |v - x| ≤ 1) (hdx : |dx| ≤ 4) :
    |euroNext x dx v dt - v| ≤ 1 / 10 ^ 7 ∧ |euroEdx x dx v dt| ≤ 1 / 10 ^ 7 := by
  have hpi3 : (3 : ℝ) < Real.pi := Real.pi_gt_three
  have hpi : 0 < Real.pi := Real.pi_pos
  have hdt0 : (0:ℝ) < dt := lt_of_lt_of_le (by norm_num) hdt
  have hf0 : (0:ℝ) < 1 / dt := by positivity
  have hf : 1 / dt ≤ 1 / 10 ^ 8 := by
    apply one_div_le_one_div_of_le (by norm_num) hdt
  have hA1 : euroAlpha 1 (1 / dt) < 1 := euroAlpha_lt_one 1 (1 / dt) one_pos hf0
  have hA0 : 0 < euroAlpha 1 (1 / dt) := euroAlpha_pos 1 (1 / dt) one_pos hf0
  have hAd : 1 - euroAlpha 1 (1 / dt) ≤ (1 / dt) / (2 * Real.pi) := by
    have := euroAlpha_defect 1 (1 / dt) one_pos hf0
    simpa using this
  have hAd2 : 1 - euroAlpha 1 (1 / dt) ≤ 1 / 10 ^ 8 / 6 := by
    refine le_trans hAd ?_
    rw [div_le_div_iff (by positivity) (by norm_num)]
    nlinarith
  have hedx : |euroEdx x dx v dt| ≤ 1 / 10 ^ 7 := by
    unfold euroEdx
    have hform : dx + euroAlpha 1 (1 / dt) * ((v - x) * (1 / dt) - dx)
        = (1 - euroAlpha 1 (1 / dt)) * dx + euroAlpha 1 (1 / dt) * ((v - x) * (1 / dt)) := by
      ring
    rw [hform]
    have h1 : |(1 - euroAlpha 1 (1 / dt)) * dx| ≤ (1 / 10 ^ 8 / 6) * 4 := by
      rw [abs_mul]
      apply mul_le_mul _ hdx (abs_nonneg _) (by norm_num)
      rw [abs_of_nonneg (by linarith)]
      exact hAd2
    have h2 : |euroAlpha 1 (1 / dt) * ((v - x) * (1 / dt))| ≤ 1 * (1 * (1 / 10 ^ 8)) := by
      rw [abs_mul, abs_mul]
      apply mul_le_mul _ _ (by positivity) (by norm_num)
      · rw [abs_of_nonneg (le_of_lt hA0)]
        exact le_of_lt hA1
      · apply mul_le_mul hv _ (abs_nonneg _) (by norm_num)
        rw [abs_of_nonneg (le_of_lt hf0)]
        exact hf
    calc |(1 - euroAlpha 1 (1 / dt)) * dx + euroAlpha 1 (1 / dt) * ((v - x) * (1 / dt))|
        ≤ |(1 - euroAlpha 1 (1 / dt)) * dx| + |euroAlpha 1 (1 / dt) * ((v - x) * (1 / dt))| :=
          abs_add _ _
      _ ≤ (1 / 10 ^ 8 / 6) * 4 + 1 * (1 * (1 / 10 ^ 8)) := add_le_add h1 h2
      _ ≤ 1 / 10 ^ 7 := by norm_num
  refine ⟨?_, hedx⟩
  have hcut : (0.05 : ℝ) ≤ euroCut x dx v dt := by
    unfold euroCut
    have := abs_nonneg (euroEdx x dx v dt)
    linarith
  have hcut0 : (0 : ℝ) < euroCut x dx v dt := by linarith
  have ha1 : euroAlpha (euroCut x dx v dt) (1 / dt) < 1 :=
    euroAlpha_lt_one _ _ hcut0 hf0
  have ha0 : 0 < euroAlpha (euroCut x dx v dt) (1 / dt) :=
    euroAlpha_pos _ _ hcut0 hf0
  have had : 1 - euroAlpha (euroCut x dx v dt) (1 / dt)
      ≤ (1 / dt) / (2 * Real.pi * euroCut x dx v dt) :=
    euroAlpha_defect _ _ hcut0 hf0
  have had2 : 1 - euroAlpha (euroCut x dx v dt) (1 / dt) ≤ 1 / 10 ^ 7 := by
    refine le_trans had ?_
    rw [div_le_div_iff (by positivity) (by norm_num)]
    have h6 : (2 * Real.pi * euroCut x dx v dt) ≥ 2 * 3 * 0.05 := by
      have := mul_le_mul (by linarith : (2 * 3 : ℝ) ≤ 2 * Real.pi) hcut (by norm_num)
        (by positivity : (0:ℝ) ≤ 2 * Real.pi)
      linarith
    nlinarith
  have hnext : euroNext x dx v dt - v
      = (1 - euroAlpha (euroCut x dx v dt) (1 / dt)) * (x - v) := by
    unfold euroNext
    ring
  rw [hnext, abs_mul, abs_sub_comm x v]
  calc |1 - euroAlpha (euroCut x dx v dt) (1 / dt)| * |v - x|
      ≤ (1 / 10 ^ 7) * 1 := by
        apply mul_le_mul _ hv (abs_nonneg _) (by norm_num)
        rw [abs_of_nonneg (by linarith)]
        exact had2
    _ = 1 / 10 ^ 7 := by norm_num

/-! ### A concrete six-frame trace

The counterexample trace for claims C2 and C3 drives the machine with a
fixed body geometry in which only the right wrist's `y` moves: side lock,
establish a below-hip start, go overhead mid-rep (without lockout), come
back down fast enough to register speed, and finish below the hip. -/

theorem euroNext_self (x dt : ℝ) : euroNext x 0 x dt = x := by
  unfold euroNext; ring

theorem euroEdx_self (x dt : ℝ) : euroEdx x 0 x dt = 0 := by
  unfold euroEdx; ring

theorem euro_fresh (v t : ℝ) : euroFilter none v t = (v, some ⟨v, 0, t⟩) := rfl

theorem euro_step (x dx v τ t : ℝ) (h : 0 < t - τ) :
    euroFilter (some ⟨x, dx, τ⟩) v t
      = (euroNext x dx v ((t - τ) / 1000),
         some ⟨euroNext x dx v ((t - τ) / 1000), euroEdx x dx v ((t - τ) / 1000), t⟩) := by
  unfold euroFilter
  dsimp only
  rw [if_neg (not_le.mpr (div_pos h (by norm_num)))]

theorem euro_const (x τ t : ℝ) (h : 0 < t - τ) :
    euroFilter (some ⟨x, 0, τ⟩) x t = (x, some ⟨x, 0, t⟩) := by
  rw [euro_step x 0 x τ t h, euroNext_self, euroEdx_self]

/-- The raw pose family: everything fixed except the right wrist height
`wy`.  Right elbow sits at the same height as the shoulder with the
forearm vertical, hip at `0.7`, nose at `0.25`; the left arm hangs low. -/
noncomputable def rawAt (wy : ℝ) : RawPose := fun s j =>
  match s, j with
  | Side.RIGHT, Joint.WRIST => ⟨0.7, wy, 0⟩
  | Side.RIGHT, Joint.ELBOW => ⟨0.7, 0.55, 0⟩
  | Side.RIGHT, Joint.SHOULDER => ⟨0.5, 0.55, 0⟩
  | Side.RIGHT, Joint.HIP => ⟨0.5, 0.7, 0⟩
  | Side.RIGHT, Joint.NOSE => ⟨0.5, 0.25, 0⟩
  | Side.RIGHT, Joint.KNEE => ⟨0.5, 0.8, 0⟩
  | Side.RIGHT, Joint.ANKLE => ⟨0.5, 0.95, 0⟩
  | Side.LEFT, _ => ⟨0.3, 0.98, 0⟩

/-- The filter bank reached after smoothing frames of `rawAt`: every
axis-filter holds its constant coordinate with zero derivative, except the
right wrist's `y` filter, which holds `w` with derivative `d`; all were
last touched at `τ`. -/
noncomputable def traceBank (w d τ : ℝ) : FilterBank := fun s j =>
  match s, j with
  | Side.RIGHT, Joint.WRIST =>
      { fx := some ⟨0.7, 0, τ⟩, fy := some ⟨w, d, τ⟩, fz := some ⟨0, 0, τ⟩ }
  | s, j => { fx := some ⟨(rawAt 0 s j).x, 0, τ⟩, fy := some ⟨(rawAt 0 s j).y, 0, τ⟩,
              fz := some ⟨0, 0, τ⟩ }

/-- Smoothing a `rawAt` frame through fresh filters passes it through and
leaves the bank in `traceBank` form. -/
theorem trace_smooth_fresh (v t : ℝ) :
    smoothPose freshBank (rawAt v) t = (rawAt v, traceBank v 0 t) := by
  unfold smoothPose
  congr 1 <;> funext s j <;> cases s <;> cases j <;> rfl

/-- Smoothing a `rawAt` frame through a `traceBank`: all constant
coordinates are fixed points of the filter, and the right wrist's `y`
undergoes one one-euro step. -/
theorem trace_smooth (w d τ v t : ℝ) (h : 0 < t - τ) :
    smoothPose (traceBank w d τ) (rawAt v) t
      = (rawAt (euroNext w d v ((t - τ) / 1000)),
         traceBank (euroNext w d v ((t - τ) / 1000)) (euroEdx w d v ((t - τ) / 1000)) t) := by
  unfold smoothPose
  congr 1 <;> funext s j <;> cases s <;> cases j <;>
    simp only [traceBank, rawAt, smoothJoint, euro_const _ _ _ h, euro_step _ _ _ _ _ h,
      euroNext_self, euroEdx_self]

/-- Both-positive interval product. -/
theorem mul_interval (a u la ua lu uu : ℝ) (h1 : la ≤ a) (h2 : a ≤ ua)
    (h3 : lu ≤ u) (h4 : u ≤ uu) (hla : 0 ≤ la) (hlu : 0 ≤ lu) :
    la * lu ≤ a * u ∧ a * u ≤ ua * uu := by
  constructor <;> nlinarith

/-- Bounds for the increasing map `u ↦ u / (u + 5)` on a positive
interval. -/
theorem ratio_bounds (u lo hi l h : ℝ) (hu1 : l ≤ u) (hu2 : u ≤ h) (hl : 0 < l)
    (hlo0 : 0 ≤ lo) (hlo1 : lo ≤ 1) (hlo : lo * (l + 5) ≤ l)
    (hhi : h ≤ hi * (h + 5)) (hhi1 : hi ≤ 1) :
    lo ≤ u / (u + 5) ∧ u / (u + 5) ≤ hi := by
  have hup : (0:ℝ) < u + 5 := by linarith
  constructor
  · rw [le_div_iff hup]
    nlinarith [mul_nonneg (sub_nonneg.mpr hu1) (sub_nonneg.mpr hlo1)]
  · rw [div_le_iff hup]
    nlinarith [mul_nonneg (sub_nonneg.mpr hu2) (sub_nonneg.mpr hhi1)]

set_option maxHeartbeats 1600000 in
/-- The one fast filter step of the trace: from a held value near `0.08`
with a near-zero derivative, a `0.1 s` step toward `0.98` lands in
`[0.409, 0.41]` (the adaptive cutoff lets about 37% of the jump through),
rising by at least `0.32`, with the new derivative state in
`[3.47, 3.48]`. -/
theorem euro_fast (x dx : ℝ) (hx : |x - 0.08| ≤ 1 / 10 ^ 7) (hdx : |dx| ≤ 1 / 10 ^ 7) :
    0.409 ≤ euroNext x dx 0.98 (1 / 10) ∧ euroNext x dx 0.98 (1 / 10) ≤ 0.41 ∧
    0.32 ≤ euroNext x dx 0.98 (1 / 10) - x ∧
    3.47 ≤ euroEdx x dx 0.98 (1 / 10) ∧ euroEdx x dx 0.98 (1 / 10) ≤ 3.48 := by
  have hpl : (3.141592 : ℝ) < Real.pi := Real.pi_gt_3141592
  have hpu : Real.pi < 3.141593 := Real.pi_lt_3141593
  have hpi : (0:ℝ) < Real.pi := Real.pi_pos
  rw [abs_le] at hx hdx
  have hA : euroAlpha 1 (1 / (1 / 10)) = Real.pi / (Real.pi + 5) := by
    rw [show (1:ℝ) / (1 / 10) = 10 by norm_num,
      euroAlpha_form 1 10 one_pos (by norm_num), mul_one,
      div_eq_div_iff (by positivity) (by positivity)]
    ring
  have hAb := ratio_bounds Real.pi 0.3858 0.3859 3.141592 3.141593
    (le_of_lt hpl) (le_of_lt hpu) (by norm_num) (by norm_num) (by norm_num)
    (by norm_num) (by norm_num) (by norm_num)
  have hedx : euroEdx x dx 0.98 (1 / 10)
      = dx + Real.pi / (Real.pi + 5) * ((0.98 - x) * 10 - dx) := by
    unfold euroEdx
    rw [hA, show (1:ℝ) / (1 / 10) = 10 by norm_num]
  have hin1 : (8.999 : ℝ) ≤ (0.98 - x) * 10 - dx := by linarith
  have hin2 : (0.98 - x) * 10 - dx ≤ 9.001 := by linarith
  have hprod := mul_interval (Real.pi / (Real.pi + 5)) ((0.98 - x) * 10 - dx)
    0.3858 0.3859 8.999 9.001 hAb.1 hAb.2 hin1 hin2 (by norm_num) (by norm_num)
  have hE1 : 3.47 ≤ euroEdx x dx 0.98 (1 / 10) := by
    rw [hedx]; linarith [hprod.1]
  have hE2 : euroEdx x dx 0.98 (1 / 10) ≤ 3.48 := by
    rw [hedx]; linarith [hprod.2]
  have hcut : euroCut x dx 0.98 (1 / 10) = 0.05 + 0.25 * euroEdx x dx 0.98 (1 / 10) := by
    unfold euroCut
    rw [abs_of_nonneg (by linarith)]
  have hc1 : (0.9175 : ℝ) ≤ euroCut x dx 0.98 (1 / 10) := by rw [hcut]; linarith
  have hc2 : euroCut x dx 0.98 (1 / 10) ≤ 0.92 := by rw [hcut]; linarith
  have hcpos : (0 : ℝ) < euroCut x dx 0.98 (1 / 10) := by linarith
  have hu := mul_interval Real.pi (euroCut x dx 0.98 (1 / 10))
    3.141592 3.141593 0.9175 0.92 (le_of_lt hpl) (le_of_lt hpu) hc1 hc2
    (by norm_num) (by norm_num)
  have ha : euroAlpha (euroCut x dx 0.98 (1 / 10)) (1 / (1 / 10))
      = Real.pi * euroCut x dx 0.98 (1 / 10) / (Real.pi * euroCut x dx 0.98 (1 / 10) + 5) := by
    rw [show (1:ℝ) / (1 / 10) = 10 by norm_num,
      euroAlpha_form _ 10 hcpos (by norm_num),
      div_eq_div_iff (by positivity) (by positivity)]
    ring
  have hab := ratio_bounds (Real.pi * euroCut x dx 0.98 (1 / 10)) 0.3656 0.3664
    2.882 2.8903 (by linarith [hu.1]) (by linarith [hu.2]) (by norm_num)
    (by norm_num) (by norm_num) (by norm_num) (by norm_num) (by norm_num)
  rw [← ha] at hab
  have hnext : euroNext x dx 0.98 (1 / 10)
      = x + euroAlpha (euroCut x dx 0.98 (1 / 10)) (1 / (1 / 10)) * (0.98 - x) := by
    unfold euroNext
    rfl
  have hstep := mul_interval (euroAlpha (euroCut x dx 0.98 (1 / 10)) (1 / (1 / 10)))
    (0.98 - x) 0.3656 0.3664 0.8999 0.9001 hab.1 hab.2 (by linarith) (by linarith)
    (by norm_num) (by norm_num)
  refine ⟨?_, ?_, ?_, hE1, hE2⟩ <;> rw [hnext] <;>
    linarith [hstep.1, hstep.2, hx.1, hx.2]

/-- In the trace geometry (upper arm horizontal, forearm vertical) the
elbow flexion is exactly 90° whenever the wrist is not at elbow height. -/
theorem flexion_trace (wy : ℝ) (hwy : wy ≠ 0.55) :
    calculateElbowFlexion 800 800 ⟨0.5, 0.55, 0⟩ ⟨0.7, 0.55, 0⟩ ⟨0.7, wy, 0⟩ = 90 := by
  unfold calculateElbowFlexion
  dsimp only
  have hS : Real.sqrt ((((0.5:ℝ) - 0.7) * 800) ^ 2 + (((0.55:ℝ) - 0.55) * 800) ^ 2) = 160 := by
    rw [show (((0.5:ℝ) - 0.7) * 800) ^ 2 + (((0.55:ℝ) - 0.55) * 800) ^ 2 = 160 ^ 2 by norm_num]
    exact Real.sqrt_sq (by norm_num)
  have hW : Real.sqrt ((((0.7:ℝ) - 0.7) * 800) ^ 2 + ((wy - 0.55) * 800) ^ 2)
      = |(wy - 0.55) * 800| := by
    rw [show (((0.7:ℝ) - 0.7) * 800) ^ 2 + ((wy - 0.55) * 800) ^ 2 = ((wy - 0.55) * 800) ^ 2
      by ring]
    exact Real.sqrt_sq_eq_abs _
  have hWne : |(wy - 0.55) * 800| ≠ 0 := by
    rw [abs_ne_zero]
    intro hc
    rcases mul_eq_zero.mp hc with hc | hc
    · exact hwy (by linarith)
    · norm_num at hc
  rw [hS, hW]
  rw [if_neg (by push_neg; exact ⟨by norm_num, hWne⟩)]
  rw [show ((0.5:ℝ) - 0.7) * 800 * (((0.7:ℝ) - 0.7) * 800)
      + ((0.55:ℝ) - 0.55) * 800 * ((wy - 0.55) * 800) = 0 by ring]
  rw [zero_div, show min (1:ℝ) 0 = 0 by norm_num, show max (-1:ℝ) 0 = 0 by norm_num,
    Real.arccos_zero]
  have hpi := Real.pi_ne_zero
  field_simp
  ring

/-- Timestamp scale of the trace: slow frames are `10^12` ms apart so the
smoothing filter tracks the raw value to within `10⁻⁷`. -/
noncomputable def bigT : ℝ := 10 ^ 12

/-- The calibration handle of the trace: 1 cm per pixel. -/
noncomputable def calibT : Calib7 := ⟨some 1⟩

/-- Smoothed right-wrist heights and filter derivative states along the
trace, frame by frame (frame 1 passes `0.85` through fresh filters). -/
noncomputable def y2 : ℝ := euroNext 0.85 0 0.98 ((2 * bigT - bigT) / 1000)
noncomputable def d2 : ℝ := euroEdx 0.85 0 0.98 ((2 * bigT - bigT) / 1000)
noncomputable def y3 : ℝ := euroNext y2 d2 0.08 ((3 * bigT - 2 * bigT) / 1000)
noncomputable def d3 : ℝ := euroEdx y2 d2 0.08 ((3 * bigT - 2 * bigT) / 1000)
noncomputable def y4 : ℝ := euroNext y3 d3 0.08 ((4 * bigT - 3 * bigT) / 1000)
noncomputable def d4 : ℝ := euroEdx y3 d3 0.08 ((4 * bigT - 3 * bigT) / 1000)
noncomputable def y5 : ℝ := euroNext y4 d4 0.98 ((4 * bigT + 100 - 4 * bigT) / 1000)
noncomputable def d5 : ℝ := euroEdx y4 d4 0.98 ((4 * bigT + 100 - 4 * bigT) / 1000)
noncomputable def y6 : ℝ := euroNext y5 d5 0.98 ((5 * bigT - (4 * bigT + 100)) / 1000)
noncomputable def d6 : ℝ := euroEdx y5 d5 0.98 ((5 * bigT - (4 * bigT + 100)) / 1000)

theorem y2_facts : |y2 - 0.98| ≤ 1 / 10 ^ 7 ∧ |d2| ≤ 1 / 10 ^ 7 :=
  euro_slow 0.85 0 0.98 ((2 * bigT - bigT) / 1000) (by norm_num [bigT])
    (abs_le.mpr (by constructor <;> norm_num)) (by norm_num)

theorem y3_facts : |y3 - 0.08| ≤ 1 / 10 ^ 7 ∧ |d3| ≤ 1 / 10 ^ 7 := by
  have h2 := y2_facts
  rw [abs_le] at h2
  exact euro_slow y2 d2 0.08 ((3 * bigT - 2 * bigT) / 1000) (by norm_num [bigT])
    (abs_le.mpr (by constructor <;> [linarith [h2.1.2]; linarith [h2.1.1]]))
    (by linarith [abs_le.mp h2.2 |>.1, abs_le.mp h2.2 |>.2, h2.2])

theorem y4_facts : |y4 - 0.08| ≤ 1 / 10 ^ 7 ∧ |d4| ≤ 1 / 10 ^ 7 := by
  have h3 := y3_facts
  rw [abs_le] at h3
  exact euro_slow y3 d3 0.08 ((4 * bigT - 3 * bigT) / 1000) (by norm_num [bigT])
    (abs_le.mpr (by constructor <;> [linarith [h3.1.2]; linarith [h3.1.1]]))
    (by linarith [h3.2])

theorem y5_facts : 0.409 ≤ y5 ∧ y5 ≤ 0.41 ∧ 0.32 ≤ y5 - y4 ∧ 3.47 ≤ d5 ∧ d5 ≤ 3.48 := by
  have he : y5 = euroNext y4 d4 0.98 (1 / 10) := by
    unfold y5
    rw [show ((4 * bigT + 100 - 4 * bigT) / 1000 : ℝ) = 1 / 10 by norm_num [bigT]]
  have hd : d5 = euroEdx y4 d4 0.98 (1 / 10) := by
    unfold d5
    rw [show ((4 * bigT + 100 - 4 * bigT) / 1000 : ℝ) = 1 / 10 by norm_num [bigT]]
  rw [he, hd]
  exact euro_fast y4 d4 y4_facts.1 y4_facts.2

theorem y6_facts : |y6 - 0.98| ≤ 1 / 10 ^ 7 := by
  have h5 := y5_facts
  refine (euro_slow y5 d5 0.98 ((5 * bigT - (4 * bigT + 100)) / 1000) (by norm_num [bigT])
    (abs_le.mpr (by constructor <;> linarith [h5.1, h5.2.1]))
    (abs_le.mpr (by constructor <;> linarith [h5.2.2.2.1, h5.2.2.2.2]))).1

/-- The machine at the start of the trace: 800×800 canvas, calibrated at
1 cm/px, fresh filters, reset state. -/
noncomputable def msm0 : MSM :=
  { canvasHeight := 800, canvasWidth := 800, calibration := calibT,
    filters := freshBank, state := msmReset }

/-- Machine states along the trace (after frames 1–6). -/
def trS1 : MSMState :=
  { msmReset with side := some Side.RIGHT }

noncomputable def trS2 : MSMState :=
  { side := some Side.RIGHT, phase := .IDLE, startedFrom := some StartPos.BELOW_HIP, reachedRack := false, reachedOverhead := false, reachedLockout := false, wentBelowHip := false, elbowStayedExtended := true, rackFrames := 0, lockoutFrames := 0, peakSpeed := 0, lastWrist := some (0.7, y2), lastTime := some (2 * bigT), smoothedSpeed := 0, resetProgress := 0, pendingMove := none }

noncomputable def trS3 : MSMState :=
  { trS2 with phase := .MOVING, lastWrist := some (0.7, y3), lastTime := some (3 * bigT) }

noncomputable def trS4 : MSMState :=
  { trS3 with reachedOverhead := true, lastWrist := some (0.7, y4), lastTime := some (4 * bigT) }

noncomputable def trS5 : MSMState :=
  { trS4 with peakSpeed := 1.2, lastWrist := some (0.7, y5), lastTime := some (4 * bigT + 100), smoothedSpeed := 1.2 }

noncomputable def trS6 : MSMState :=
  { side := some Side.RIGHT, phase := .IDLE, startedFrom := some StartPos.BELOW_HIP, reachedRack := false, reachedOverhead := false, reachedLockout := false, wentBelowHip := false, elbowStayedExtended := true, rackFrames := 0, lockoutFrames := 0, peakSpeed := 0, lastWrist := some (0.7, y6), lastTime := some (5 * bigT), smoothedSpeed := 1.02, resetProgress := 0, pendingMove := none }

noncomputable def trM1 : MSM :=
  { canvasHeight := 800, canvasWidth := 800, calibration := calibT,
    filters := traceBank 0.85 0 bigT, state := trS1 }

noncomputable def trM2 : MSM :=
  { trM1 with filters := traceBank y2 d2 (2 * bigT), state := trS2 }

noncomputable def trM3 : MSM :=
  { trM1 with filters := traceBank y3 d3 (3 * bigT), state := trS3 }

noncomputable def trM4 : MSM :=
  { trM1 with filters := traceBank y4 d4 (4 * bigT), state := trS4 }

noncomputable def trM5 : MSM :=
  { trM1 with filters := traceBank y5 d5 (4 * bigT + 100), state := trS5 }

noncomputable def trM6 : MSM :=
  { trM1 with filters := traceBank y6 d6 (5 * bigT), state := trS6 }

/-- The first five trace frames (through the fast return). -/
noncomputable def theFrames5 : List (RawPose × ℝ) :=
  [(rawAt 0.85, bigT), (rawAt 0.98, 2 * bigT), (rawAt 0.08, 3 * bigT),
   (rawAt 0.08, 4 * bigT), (rawAt 0.98, 4 * bigT + 100)]

/-- All six trace frames. -/
noncomputable def theFrames : List (RawPose × ℝ) :=
  theFrames5 ++ [(rawAt 0.98, 5 * bigT)]

/-- Frame 1: wrists differ by 0.13 in height, so the machine locks the
higher (right) side and does nothing else. -/
theorem msm_step1 : update msm0 (rawAt 0.85) bigT
    = (some (.sideLocked Side.RIGHT), trM1) := by
  unfold update
  dsimp only [msm0]
  rw [trace_smooth_fresh 0.85 bigT]
  rw [show msmReset.side = (none : Option Side) from rfl]
  dsimp only [rawAt]
  rw [show |(0.98:ℝ) - 0.85| = 0.13 from by rw [abs_of_nonneg (by norm_num)]; norm_num]
  rw [if_pos (by norm_num : (0.13:ℝ) > 0.1)]
  rw [if_neg (by norm_num : ¬ ((0.98:ℝ) < 0.85))]
  rfl

/-- Frame 2: smoothed wrist ≈ 0.98 is below the hip, so the IDLE block
records a below-hip start; no previous velocity sample, so speed 0. -/
theorem msm_step2 : update trM1 (rawAt 0.98) (2 * bigT) = (none, trM2) := by
  have hy := y2_facts.1
  rw [abs_le] at hy
  have hy2ne : y2 ≠ 0.55 := by
    intro h
    rw [h] at hy
    norm_num at hy
  unfold update
  dsimp only [trM1]
  rw [trace_smooth 0.85 0 bigT 0.98 (2 * bigT) (by norm_num [bigT])]
  rw [show euroNext 0.85 0 0.98 ((2 * bigT - bigT) / 1000) = y2 from rfl,
      show euroEdx 0.85 0 0.98 ((2 * bigT - bigT) / 1000) = d2 from rfl]
  rw [show trS1.side = some Side.RIGHT from rfl]
  dsimp only [rawAt]
  rw [flexion_trace y2 hy2ne]
  rw [calculateSpeed_uninit 800 800 calibT trS1 ⟨0.7, y2, 0⟩ (2 * bigT) (Or.inr (Or.inl rfl))]
  dsimp only [trS1, msmReset]
  rw [show (0.15 * 0 + 0.85 * 0 : ℝ) = 0 from by norm_num]
  unfold phaseStep
  dsimp only
  unfold idleStep
  dsimp only
  rw [if_neg (by rintro ⟨h, _⟩; norm_num at h : ¬ ((90:ℝ) < 40 ∧ y2 < 0.25 - 0.1))]
  rw [if_neg (by rintro ⟨h, _⟩; norm_num at h : ¬ ((90:ℝ) > 130 ∧ |y2 - 0.55| < 0.08))]
  rw [if_pos (by linarith [hy.1] : y2 > 0.7)]
  dsimp only
  rw [if_neg (by simp : ¬ (some StartPos.BELOW_HIP = some StartPos.RACK ∧ ¬ ((90:ℝ) > 130 ∧ |y2 - 0.55| < 0.08)))]
  rw [if_neg (by rintro ⟨_, h⟩; exact h (by linarith [hy.1]) : ¬ (some StartPos.BELOW_HIP = some StartPos.BELOW_HIP ∧ ¬ y2 > 0.7))]
  rw [if_neg (by simp : ¬ (some StartPos.BELOW_HIP = some StartPos.OVERHEAD ∧ ¬ ((90:ℝ) < 40 ∧ y2 < 0.25 - 0.1)))]
  rfl

theorem ppmT : getPixelsPerMeter calibT = some (100 / 1) := by
  unfold getPixelsPerMeter calibT
  dsimp only
  rw [if_neg one_ne_zero]

/-- Frame 3: smoothed wrist ≈ 0.08 has left the below-hip zone, so the
IDLE block fires the departure check and enters MOVING; the huge elapsed
time rejects the velocity sample. -/
theorem msm_step3 : update trM2 (rawAt 0.08) (3 * bigT) = (none, trM3) := by
  have hy := y3_facts.1
  rw [abs_le] at hy
  have hy3ne : y3 ≠ 0.55 := by
    intro h
    rw [h] at hy
    norm_num at hy
  unfold update
  dsimp only [trM2, trM1]
  rw [trace_smooth y2 d2 (2 * bigT) 0.08 (3 * bigT) (by norm_num [bigT])]
  rw [show euroNext y2 d2 0.08 ((3 * bigT - 2 * bigT) / 1000) = y3 from rfl,
      show euroEdx y2 d2 0.08 ((3 * bigT - 2 * bigT) / 1000) = d3 from rfl]
  rw [show trS2.side = some Side.RIGHT from rfl]
  dsimp only [rawAt]
  rw [flexion_trace y3 hy3ne]
  rw [calculateSpeed_reject 800 800 calibT trS2 ⟨0.7, y3, 0⟩ (3 * bigT) (100 / 1) (0.7, y2)
    (2 * bigT) ppmT rfl rfl (by norm_num [bigT]) (Or.inr (by norm_num [bigT]))]
  dsimp only [trS2]
  rw [show (0.15 * 0 + 0.85 * 0 : ℝ) = 0 from by norm_num]
  unfold phaseStep
  dsimp only
  unfold idleStep
  dsimp only
  rw [if_neg (by rintro ⟨h, _⟩; norm_num at h : ¬ ((90:ℝ) < 40 ∧ y3 < 0.25 - 0.1))]
  rw [if_neg (by rintro ⟨h, _⟩; norm_num at h : ¬ ((90:ℝ) > 130 ∧ |y3 - 0.55| < 0.08))]
  rw [if_neg (by linarith [hy.2] : ¬ y3 > 0.7)]
  rw [if_neg (by simp : ¬ (some StartPos.BELOW_HIP = some StartPos.RACK ∧ ¬ ((90:ℝ) > 130 ∧ |y3 - 0.55| < 0.08)))]
  rw [if_pos (⟨rfl, by intro h; exact absurd h (by linarith [hy.2])⟩ :
    some StartPos.BELOW_HIP = some StartPos.BELOW_HIP ∧ ¬ y3 > 0.7)]
  unfold moveStart resetFlags
  rfl

/-- `movingFlags` when only the overhead line is crossed. -/
theorem movingFlags_eval_over (st : MSMState)
    (flexHigh inRack inLockout wristBelowHip wristOverhead : Prop)
    [Decidable flexHigh] [Decidable inRack] [Decidable inLockout]
    [Decidable wristBelowHip] [Decidable wristOverhead]
    (h1 : ¬ flexHigh) (h2 : ¬ inRack) (h3 : ¬ inLockout) (h4 : ¬ wristBelowHip)
    (h5 : wristOverhead) :
    movingFlags st flexHigh inRack inLockout wristBelowHip wristOverhead
      = { st with peakSpeed := max st.peakSpeed st.smoothedSpeed, reachedOverhead := true, lockoutFrames := 0, rackFrames := 0 } := by
  unfold movingFlags
  dsimp only
  rw [if_neg h1, if_neg h4, if_pos h5, if_neg h3, if_neg h2]

/-- `movingFlags` when no position predicate holds. -/
theorem movingFlags_eval_none (st : MSMState)
    (flexHigh inRack inLockout wristBelowHip wristOverhead : Prop)
    [Decidable flexHigh] [Decidable inRack] [Decidable inLockout]
    [Decidable wristBelowHip] [Decidable wristOverhead]
    (h1 : ¬ flexHigh) (h2 : ¬ inRack) (h3 : ¬ inLockout) (h4 : ¬ wristBelowHip)
    (h5 : ¬ wristOverhead) :
    movingFlags st flexHigh inRack inLockout wristBelowHip wristOverhead
      = { st with peakSpeed := max st.peakSpeed st.smoothedSpeed, lockoutFrames := 0, rackFrames := 0 } := by
  unfold movingFlags
  dsimp only
  rw [if_neg h1, if_neg h4, if_neg h5, if_neg h3, if_neg h2]

/-- `movingFlags` when only the below-hip predicate holds. -/
theorem movingFlags_eval_below (st : MSMState)
    (flexHigh inRack inLockout wristBelowHip wristOverhead : Prop)
    [Decidable flexHigh] [Decidable inRack] [Decidable inLockout]
    [Decidable wristBelowHip] [Decidable wristOverhead]
    (h1 : ¬ flexHigh) (h2 : ¬ inRack) (h3 : ¬ inLockout) (h4 : wristBelowHip)
    (h5 : ¬ wristOverhead) :
    movingFlags st flexHigh inRack inLockout wristBelowHip wristOverhead
      = { st with peakSpeed := max st.peakSpeed st.smoothedSpeed, wentBelowHip := true, lockoutFrames := 0, rackFrames := 0 } := by
  unfold movingFlags
  dsimp only
  rw [if_neg h1, if_pos h4, if_neg h5, if_neg h3, if_neg h2]

/-- Frame 4: still MOVING at ≈ 0.08 — above the overhead line (nose − 0.1),
so the sticky `reachedOverhead` flag is set mid-rep, with no lockout. -/
theorem msm_step4 : update trM3 (rawAt 0.08) (4 * bigT) = (none, trM4) := by
  have hy := y4_facts.1
  rw [abs_le] at hy
  have hy4ne : y4 ≠ 0.55 := by
    intro h
    rw [h] at hy
    norm_num at hy
  unfold update
  dsimp only [trM3, trM1]
  rw [trace_smooth y3 d3 (3 * bigT) 0.08 (4 * bigT) (by norm_num [bigT])]
  rw [show euroNext y3 d3 0.08 ((4 * bigT - 3 * bigT) / 1000) = y4 from rfl,
      show euroEdx y3 d3 0.08 ((4 * bigT - 3 * bigT) / 1000) = d4 from rfl]
  rw [show trS3.side = some Side.RIGHT from rfl]
  dsimp only [rawAt]
  rw [flexion_trace y4 hy4ne]
  rw [calculateSpeed_reject 800 800 calibT trS3 ⟨0.7, y4, 0⟩ (4 * bigT) (100 / 1) (0.7, y3)
    (3 * bigT) ppmT rfl rfl (by norm_num [bigT]) (Or.inr (by norm_num [bigT]))]
  dsimp only [trS3, trS2]
  rw [show (0.15 * 0 + 0.85 * 0 : ℝ) = 0 from by norm_num]
  unfold phaseStep
  dsimp only
  unfold movingStep
  dsimp only
  rw [movingFlags_eval_over _ _ _ _ _ _ (by norm_num) (by rintro ⟨h, _⟩; norm_num at h)
    (by rintro ⟨h, _⟩; norm_num at h) (by linarith [hy.2]) (by linarith [hy.2])]
  dsimp only
  rw [max_self (0:ℝ)]
  rw [if_neg (by simp)]
  rw [if_neg (by simp)]
  rw [if_neg (by simp)]
  rw [if_neg (by simp)]
  rw [if_neg (by rintro ⟨_, _, h, _⟩; exact absurd h (by linarith [hy.2]))]
  rfl

/-- Frame 5's velocity sample: elapsed time exactly 0.1 s (in band), wrist
dropped ≥ 0.32 normalized ≈ 256 px ≈ 2.56 m, so the raw speed 25.6 m/s is
clamped to 8 m/s. -/
theorem speed_f5 : calculateSpeed 800 800 calibT trS4 ⟨0.7, y5, 0⟩ (4 * bigT + 100)
    = (8, { trS4 with lastWrist := some (0.7, y5), lastTime := some (4 * bigT + 100) }) := by
  have h5 := y5_facts
  unfold calculateSpeed
  rw [ppmT]
  rw [show trS4.lastWrist = some ((0.7:ℝ), y4) from rfl,
      show trS4.lastTime = some ((4:ℝ) * bigT) from rfl]
  dsimp only
  rw [if_neg (by norm_num [bigT] : ¬ ((4:ℝ) * bigT = 0))]
  rw [if_neg (by push_neg; constructor <;> norm_num [bigT])]
  rw [show ((0.7:ℝ) - 0.7) * 800 = 0 from by norm_num]
  rw [show ((0:ℝ))^2 + ((y5 - y4) * 800)^2 = ((y5 - y4) * 800)^2 from by ring]
  rw [Real.sqrt_sq (by nlinarith [h5.2.2.1] : (0:ℝ) ≤ (y5 - y4) * 800)]
  rw [show ((4 * bigT + 100 - 4 * bigT) / 1000 : ℝ) = 0.1 from by norm_num [bigT]]
  rw [min_eq_right (by rw [div_div, le_div_iff (by norm_num)]; nlinarith [h5.2.2.1])]

/-- Frame 5: the fast return — speed 8 m/s accepted, smoothed speed rises
to exactly 1.2 m/s and becomes the rep's peak; the wrist (≈ 0.41) is
between overhead and navel, so no flag moves and no branch fires. -/
theorem msm_step5 : update trM4 (rawAt 0.98) (4 * bigT + 100) = (none, trM5) := by
  have h5 := y5_facts
  have hy5ne : y5 ≠ 0.55 := by intro h; rw [h] at h5; norm_num at h5
  unfold update
  dsimp only [trM4, trM1]
  rw [trace_smooth y4 d4 (4 * bigT) 0.98 (4 * bigT + 100) (by norm_num [bigT])]
  rw [show euroNext y4 d4 0.98 ((4 * bigT + 100 - 4 * bigT) / 1000) = y5 from rfl,
      show euroEdx y4 d4 0.98 ((4 * bigT + 100 - 4 * bigT) / 1000) = d5 from rfl]
  rw [show trS4.side = some Side.RIGHT from rfl]
  dsimp only [rawAt]
  rw [flexion_trace y5 hy5ne]
  rw [speed_f5]
  dsimp only [trS4, trS3, trS2]
  rw [show (0.15 * 8 + 0.85 * 0 : ℝ) = 1.2 from by norm_num]
  unfold phaseStep
  dsimp only
  unfold movingStep
  dsimp only
  rw [movingFlags_eval_none _ _ _ _ _ _ (by norm_num) (by rintro ⟨h, _⟩; norm_num at h)
    (by rintro ⟨h, _⟩; norm_num at h) (by linarith [h5.2.1]) (by linarith [h5.1])]
  dsimp only
  rw [max_eq_right (by norm_num : (0:ℝ) ≤ 1.2)]
  rw [if_neg (by simp)]
  rw [if_neg (by simp)]
  rw [if_neg (by simp)]
  rw [if_neg (by simp)]
  rw [if_neg (by rintro ⟨_, _, h, _⟩; exact absurd h (by linarith [h5.2.1]))]
  rfl

/-- Frame 6: wrist back below the hip; the huge elapsed time rejects the
velocity sample (smoothed speed decays 1.2 → 1.02), yet the SWING branch
fires on the stored peak 1.2 — despite `reachedOverhead = true` and
`reachedLockout = false` throughout the rep. -/
theorem msm_step6 : update trM5 (rawAt 0.98) (5 * bigT)
    = (some (.rep .SWING 1.2), trM6) := by
  have h6 := y6_facts
  rw [abs_le] at h6
  have hy6ne : y6 ≠ 0.55 := by
    intro h
    rw [h] at h6
    norm_num at h6
  unfold update
  dsimp only [trM5, trM1]
  rw [trace_smooth y5 d5 (4 * bigT + 100) 0.98 (5 * bigT) (by norm_num [bigT])]
  rw [show euroNext y5 d5 0.98 ((5 * bigT - (4 * bigT + 100)) / 1000) = y6 from rfl,
      show euroEdx y5 d5 0.98 ((5 * bigT - (4 * bigT + 100)) / 1000) = d6 from rfl]
  rw [show trS5.side = some Side.RIGHT from rfl]
  dsimp only [rawAt]
  rw [flexion_trace y6 hy6ne]
  rw [calculateSpeed_reject 800 800 calibT trS5 ⟨0.7, y6, 0⟩ (5 * bigT) (100 / 1) (0.7, y5)
    (4 * bigT + 100) ppmT rfl rfl (by norm_num [bigT]) (Or.inr (by norm_num [bigT]))]
  dsimp only [trS5, trS4, trS3, trS2]
  rw [show (0.15 * 0 + 0.85 * 1.2 : ℝ) = 1.02 from by norm_num]
  unfold phaseStep
  dsimp only
  unfold movingStep
  dsimp only
  rw [movingFlags_eval_below _ _ _ _ _ _ (by norm_num) (by rintro ⟨h, _⟩; norm_num at h)
    (by rintro ⟨h, _⟩; norm_num at h) (by linarith [h6.1]) (by linarith [h6.1])]
  dsimp only
  rw [max_eq_left (by norm_num : (1.02:ℝ) ≤ 1.2)]
  rw [if_neg (by simp)]
  rw [if_neg (by simp)]
  rw [if_neg (by simp)]
  rw [if_neg (by simp)]
  rw [if_pos (⟨rfl, rfl, by linarith [h6.1], by norm_num⟩ :
    some StartPos.BELOW_HIP = some StartPos.BELOW_HIP ∧ true = true ∧ y6 > 0.7
      ∧ (1.2:ℝ) > 0.5)]
  unfold resetForNext resetFlags
  rfl

theorem trace_run5 : runMSM msm0 theFrames5
    = ([some (.sideLocked Side.RIGHT), none, none, none, none], trM5) := by
  unfold runMSM theFrames5
  simp only [List.foldl, msm_step1, msm_step2, msm_step3, msm_step4, msm_step5]
  rfl

theorem trace_run6 : runMSM msm0 theFrames
    = ([some (.sideLocked Side.RIGHT), none, none, none, none, some (.rep .SWING 1.2)],
       trM6) := by
  unfold runMSM theFrames theFrames5
  simp only [List.cons_append, List.nil_append, List.foldl,
    msm_step1, msm_step2, msm_step3, msm_step4, msm_step5, msm_step6]

/-- C3 counterexample.  The six-frame trace emits a SWING rep whose rep
went overhead mid-rep without lockout: after frame 5 the machine is MOVING
with `reachedOverhead = true` and `reachedLockout = false` on a rep
started below the hip, and frame 6 emits `SWING 1.2` — contradicting
"no frame sequence in which the wrist goes overhead mid-rep (without
lockout) can produce a SWING event". -/
theorem swing_overhead_counterexample :
    (runMSM msm0 theFrames).1
      = [some (.sideLocked Side.RIGHT), none, none, none, none, some (.rep .SWING 1.2)]
    ∧ (runMSM msm0 theFrames5).2.state.reachedOverhead = true
    ∧ (runMSM msm0 theFrames5).2.state.reachedLockout = false
    ∧ (runMSM msm0 theFrames5).2.state.phase = Phase.MOVING
    ∧ (runMSM msm0 theFrames5).2.state.startedFrom = some StartPos.BELOW_HIP := by
  refine ⟨by rw [trace_run6], ?_, ?_, ?_, ?_⟩ <;> rw [trace_run5] <;> rfl

theorem swing_emission_guards_witness :
    ∃ s, trM5.state.side = some s ∧
      trM5.state.phase = Phase.MOVING ∧
      trM5.state.startedFrom = some StartPos.BELOW_HIP ∧
      trM5.state.elbowStayedExtended = true ∧
      ((smoothPose trM5.filters (rawAt 0.98) (5 * bigT)).1 s Joint.WRIST).y
        > ((smoothPose trM5.filters (rawAt 0.98) (5 * bigT)).1 s Joint.HIP).y ∧
      (1.2:ℝ) > 0.5 :=
  swing_emission_guards trM5 (rawAt 0.98) (5 * bigT) 1.2 (by rw [msm_step6])

/-- C2 counterexample.  After frame 5 the reported smoothed velocity is
1.2 m/s; frame 6's elapsed time is far above the band, the velocity sample
is withheld (0), yet the previously reported velocity is *not* retained:
the smoothed velocity decays to 1.02 m/s on the rejected frame. -/
theorem band_rejection_spike_counterexample :
    (runMSM msm0 theFrames5).2.state.smoothedSpeed = 1.2
    ∧ (calculateSpeed 800 800 calibT trS5 (rawAt y6 Side.RIGHT Joint.WRIST) (5 * bigT)).1 = 0
    ∧ (update (runMSM msm0 theFrames5).2 (rawAt 0.98) (5 * bigT)).2.state.smoothedSpeed = 1.02
    ∧ (1.02 : ℝ) ≠ 1.2 := by
  refine ⟨by rw [trace_run5]; rfl, ?_, ?_, by norm_num⟩
  · rw [calculateSpeed_reject 800 800 calibT trS5 (rawAt y6 Side.RIGHT Joint.WRIST) (5 * bigT)
      (100 / 1) (0.7, y5) (4 * bigT + 100) ppmT rfl rfl (by norm_num [bigT])
      (Or.inr (by norm_num [bigT]))]
  · rw [trace_run5]
    dsimp only
    rw [msm_step6]
    rfl
